import Mathlib

/-!
S25FL256 serial NOR-flash driver (`src/drivers/s25fl256.c`)

A shallow embedding of the driver.  The SPI transport is an external
collaborator: it is modelled as an arbitrary function of the history of bus
operations performed so far, and the driver threads the growing trace of
operations explicitly.  Loops carry a fuel argument (one unit per evaluation
of the loop condition).  The diagnostic calls (`PrintMessage`) have no effect
on control flow and are left out.  The constants of the headers that are not
part of the sources (`s25fl256.h`, `spi.h`, `error.h`) are parameters,
gathered in `Consts`.
-/

namespace S25FL256

/-- The constants the driver takes from its headers.  `kError_AssertParam` is
the code with which a failed `mAssertParam` makes the operation fail. -/
structure Consts where
  kSuccess : Int
  kError_UnsupportedDevice : Int
  kError_FlashBusy : Int
  kError_FlashWNE : Int
  kError_FlashErase : Int
  kError_FlashProg : Int
  kError_AssertParam : Int
  kS25FL256_RegisterRDID : Nat
  kS25FL256_RegisterRDSR1 : Nat
  kS25FL256_RegisterWREN : Nat
  kS25FL256_Register4P4E : Nat
  kS25FL256_Register4SE : Nat
  kS25FL256_Register4PP : Nat
  kS25FL256_Register4READ : Nat
  S25FL256_RegisterRDSR1_WIP : Nat
  S25FL256_RegisterRDSR1_WEL : Nat
  S25FL256_RegisterRDSR1_E_ERR : Nat
  S25FL256_RegisterRDSR1_P_ERR : Nat
  S25FL256_RegisterRDID_ManufacturerID : Nat
  S25FL256_RegisterRDID_MemoryType : Nat
  S25FL256_RegisterRDID_Capacity : Nat
  S25FL256_RegisterRDID_IDCFI : Nat
  S25FL256_RegisterRDID_SectorArchitecture : Nat
  S25FL256_RegisterRDID_FamilyID : Nat
  kS25FL256_RegisterRDID_SectorArchitecture256KB : Nat
  kS25FL256_RegisterRDID_SectorArchitecture64KB : Nat
  kS25FL256_PageSize512B : Nat
  kS25FL256_PageSize256B : Nat
  kS25FL256_4KSectorLast : Nat

/-- The polling ceiling, `#define kS25FL256Timeout 0x10000`. -/
def kS25FL256Timeout : Nat := 0x10000

/-- One operation on the SPI transport, as requested by the driver. -/
inductive BusOp where
  | setup
  | read (reg len : Nat)
  | write (reg : Nat) (payload : List Nat) (complete : Bool)
  deriving DecidableEq, Repr

/-- The transport.  Each call sees the operations performed before it and
answers with a status code; a read also answers with the content of the
caller's buffer after the call. -/
structure Bus where
  SPI3ReadRegister : List BusOp → Nat → Nat → Int × List Nat
  SPI3WriteRegister : List BusOp → Nat → List Nat → Bool → Int

/-- The device descriptor `S25FL256_t` (the static `gS25FL256`). -/
structure S25FL256_t where
  manufacturerID : Nat
  memoryType : Nat
  capacity : Nat
  IDCFI : Nat
  sectorArchitecture : Nat
  familyID : Nat
  pageSize : Nat
  deriving DecidableEq, Repr

/-- Element `i` of a `uint8_t` buffer filled by the transport. -/
def byteAt (buf : List Nat) (i : Nat) : Nat := buf.getD i 0 % 256

/-- The operations of `n` consecutive one-byte reads of status register 1. -/
def statusReads (c : Consts) (n : Nat) : List BusOp :=
  List.replicate n (BusOp.read c.kS25FL256_RegisterRDSR1 1)

/-- Answer of the transport to the status read issued after `tr` followed by
`i` further status reads. -/
def statusResp (c : Consts) (bus : Bus) (tr : List BusOp) (i : Nat) : Int × List Nat :=
  bus.SPI3ReadRegister (tr ++ statusReads c i) c.kS25FL256_RegisterRDSR1 1

/-- The `uint8_t sectorAddress[4]` filled from a `uint32_t` address. -/
def sectorAddressBytes (inSectorAddress : Nat) : List Nat :=
  [(inSectorAddress >>> 24) % 256, (inSectorAddress >>> 16) % 256,
   (inSectorAddress >>> 8) % 256, (inSectorAddress &&& 0xFF) % 256]

/-- Value of a byte string read most-significant byte first. -/
def bigEndianValue (bytes : List Nat) : Nat :=
  bytes.foldl (fun acc b => acc * 256 + b) 0

/-- Function `S25FL256ReadInfo` (lines 40-74): the identification read; returns the
status, the descriptor after the call and the trace. -/
def S25FL256ReadInfo (c : Consts) (bus : Bus) (dev : S25FL256_t) (tr : List BusOp) :
    Int × S25FL256_t × List BusOp :=
  let r := bus.SPI3ReadRegister tr c.kS25FL256_RegisterRDID 6
  let tr1 := tr ++ [BusOp.read c.kS25FL256_RegisterRDID 6]
  let spiData := r.2
  let status := r.1
  if status = c.kSuccess then
    let dev1 : S25FL256_t :=
      { dev with
        manufacturerID := byteAt spiData c.S25FL256_RegisterRDID_ManufacturerID
        memoryType := byteAt spiData c.S25FL256_RegisterRDID_MemoryType
        capacity := byteAt spiData c.S25FL256_RegisterRDID_Capacity
        IDCFI := byteAt spiData c.S25FL256_RegisterRDID_IDCFI
        sectorArchitecture := byteAt spiData c.S25FL256_RegisterRDID_SectorArchitecture
        familyID := byteAt spiData c.S25FL256_RegisterRDID_FamilyID }
    let status1 := if dev1.manufacturerID ≠ 0x01 then c.kError_UnsupportedDevice else status
    if dev1.sectorArchitecture = c.kS25FL256_RegisterRDID_SectorArchitecture256KB then
      (status1, { dev1 with pageSize := c.kS25FL256_PageSize512B }, tr1)
    else if c.kS25FL256_RegisterRDID_SectorArchitecture64KB ≠ 0 then
      (status1, { dev1 with pageSize := c.kS25FL256_PageSize256B }, tr1)
    else
      (c.kError_UnsupportedDevice, dev1, tr1)
  else
    (status, dev, tr1)

/-- The `while` loop of `S25FL256BusyWait`. -/
def busyWaitLoop (c : Consts) (bus : Bus) :
    Nat → Int → Nat → Nat → List BusOp → Option (Int × List BusOp)
  | 0, _, _, _, _ => none
  | fuel + 1, status, spiData, timeout, tr =>
    if spiData &&& c.S25FL256_RegisterRDSR1_WIP ≠ 0 then
      let r := bus.SPI3ReadRegister tr c.kS25FL256_RegisterRDSR1 1
      let tr1 := tr ++ [BusOp.read c.kS25FL256_RegisterRDSR1 1]
      if timeout > kS25FL256Timeout then
        some (c.kError_FlashBusy, tr1)
      else if r.1 ≠ c.kSuccess then
        some (r.1, tr1)
      else
        busyWaitLoop c bus fuel r.1 (byteAt r.2 0) ((timeout + 1) % 2 ^ 32) tr1
    else
      some (status, tr)

/-- Function `S25FL256BusyWait` (lines 77-107). -/
def S25FL256BusyWait (c : Consts) (bus : Bus) (fuel : Nat) (tr : List BusOp) :
    Option (Int × List BusOp) :=
  let r := bus.SPI3ReadRegister tr c.kS25FL256_RegisterRDSR1 1
  let tr1 := tr ++ [BusOp.read c.kS25FL256_RegisterRDSR1 1]
  if r.1 ≠ c.kSuccess then
    some (r.1, tr1)
  else
    busyWaitLoop c bus fuel r.1 (byteAt r.2 0) 0 tr1

/-- The `while` loop of `S25FL256CheckStatus`. -/
def checkStatusLoop (c : Consts) (bus : Bus) (inStatusFlag : Nat) :
    Nat → Int → Nat → Nat → List BusOp → Option (Int × List BusOp)
  | 0, _, _, _, _ => none
  | fuel + 1, status, spiData, timeout, tr =>
    if spiData ≠ 0 then
      if spiData &&& c.S25FL256_RegisterRDSR1_WIP = 0 ∧
          spiData &&& c.S25FL256_RegisterRDSR1_WEL ≠ 0 then
        -- write enable latched and flash not busy: break
        some (status, tr)
      else
        let status1 :=
          if spiData &&& c.S25FL256_RegisterRDSR1_WIP = 0 ∧
              inStatusFlag = c.S25FL256_RegisterRDSR1_WEL then c.kError_FlashWNE
          else status
        let status2 :=
          if spiData &&& c.S25FL256_RegisterRDSR1_E_ERR ≠ 0 then c.kError_FlashErase
          else status1
        let status3 :=
          if spiData &&& c.S25FL256_RegisterRDSR1_P_ERR ≠ 0 then c.kError_FlashProg
          else status2
        let status4 := if timeout > kS25FL256Timeout then c.kError_FlashBusy else status3
        if status4 ≠ c.kSuccess then
          some (status4, tr)
        else
          let r := bus.SPI3ReadRegister tr c.kS25FL256_RegisterRDSR1 1
          checkStatusLoop c bus inStatusFlag fuel r.1 (byteAt r.2 0)
            ((timeout + 1) % 2 ^ 32) (tr ++ [BusOp.read c.kS25FL256_RegisterRDSR1 1])
    else
      some (status, tr)

/-- Function `S25FL256CheckStatus` (lines 110-165). -/
def S25FL256CheckStatus (c : Consts) (bus : Bus) (fuel : Nat) (inStatusFlag : Nat)
    (tr : List BusOp) : Option (Int × List BusOp) :=
  let r := bus.SPI3ReadRegister tr c.kS25FL256_RegisterRDSR1 1
  let tr1 := tr ++ [BusOp.read c.kS25FL256_RegisterRDSR1 1]
  if r.1 ≠ c.kSuccess then
    some (r.1, tr1)
  else
    checkStatusLoop c bus inStatusFlag fuel r.1 (byteAt r.2 0) 0 tr1

/-- Function `S25FL256WriteEnable` (lines 168-178): a zero-length complete write to
the WREN register. -/
def S25FL256WriteEnable (c : Consts) (bus : Bus) (tr : List BusOp) : Int × List BusOp :=
  (bus.SPI3WriteRegister tr c.kS25FL256_RegisterWREN [] true,
   tr ++ [BusOp.write c.kS25FL256_RegisterWREN [] true])

/-- Function `S25FL256Init` (lines 181-198); `SPI3Setup` is recorded as a bus operation. -/
def S25FL256Init (c : Consts) (bus : Bus) (fuel : Nat) (dev : S25FL256_t) (tr : List BusOp) :
    Option (Int × S25FL256_t × List BusOp) :=
  match S25FL256BusyWait c bus fuel (tr ++ [BusOp.setup]) with
  | none => none
  | some bw =>
    if bw.1 = c.kSuccess then some (S25FL256ReadInfo c bus dev bw.2)
    else some (bw.1, dev, bw.2)

/-- Modelled from the spec: the macro `mAssertParam` of the absent `utils.h`.
When the asserted condition is false the calling operation fails with a
parameter-validation error and does nothing else; otherwise it goes on. -/
def mAssertParam (c : Consts) (cond : Bool) (tr : List BusOp)
    (body : Option (Int × List BusOp)) : Option (Int × List BusOp) :=
  if cond then body else some (c.kError_AssertParam, tr)

/-- Function `S25FL256Erase4K` (lines 201-217). -/
def S25FL256Erase4K (c : Consts) (bus : Bus) (fuel : Nat) (inSectorAddress : Nat)
    (tr : List BusOp) : Option (Int × List BusOp) :=
  mAssertParam c (decide (inSectorAddress ≥ 0 ∧ inSectorAddress ≤ c.kS25FL256_4KSectorLast)) tr
    (let we := S25FL256WriteEnable c bus tr
     match S25FL256CheckStatus c bus fuel (c.S25FL256_RegisterRDSR1_WEL % 256) we.2 with
     | none => none
     | some cs =>
       let sectorAddress := sectorAddressBytes inSectorAddress
       some (bus.SPI3WriteRegister cs.2 c.kS25FL256_Register4P4E sectorAddress true,
             cs.2 ++ [BusOp.write c.kS25FL256_Register4P4E sectorAddress true]))

/-- Function `S25FL256Erase64K` (lines 220-234). -/
def S25FL256Erase64K (c : Consts) (bus : Bus) (fuel : Nat) (inSectorAddress : Nat)
    (tr : List BusOp) : Option (Int × List BusOp) :=
  let we := S25FL256WriteEnable c bus tr
  match S25FL256CheckStatus c bus fuel (c.S25FL256_RegisterRDSR1_WEL % 256) we.2 with
  | none => none
  | some cs =>
    let sectorAddress := sectorAddressBytes inSectorAddress
    some (bus.SPI3WriteRegister cs.2 c.kS25FL256_Register4SE sectorAddress true,
          cs.2 ++ [BusOp.write c.kS25FL256_Register4SE sectorAddress true])

/-- Function `S25FL256PageWrite` (lines 237-272); the payload sent is the first
`inSize` bytes of `inData`. -/
def S25FL256PageWrite (c : Consts) (bus : Bus) (fuel : Nat) (dev : S25FL256_t)
    (inSectorAddress : Nat) (inData : List Nat) (inSize : Nat) (tr : List BusOp) :
    Option (Int × List BusOp) :=
  match S25FL256BusyWait c bus fuel tr with
  | none => none
  | some bw =>
    let status := c.kSuccess
    if inSize ≤ dev.pageSize then
      let sectorAddress := sectorAddressBytes inSectorAddress
      let we := S25FL256WriteEnable c bus bw.2
      match S25FL256CheckStatus c bus fuel (c.S25FL256_RegisterRDSR1_WEL % 256) we.2 with
      | none => none
      | some cs =>
        let status1 := bus.SPI3WriteRegister cs.2 c.kS25FL256_Register4PP sectorAddress false
        let tr1 := cs.2 ++ [BusOp.write c.kS25FL256_Register4PP sectorAddress false]
        if status1 ≠ c.kSuccess then
          some (status1, tr1)
        else
          let status2 :=
            bus.SPI3WriteRegister tr1 c.kS25FL256_Register4PP (inData.take inSize) true
          some (status2, tr1 ++ [BusOp.write c.kS25FL256_Register4PP (inData.take inSize) true])
    else
      some (status, bw.2)

/-- Function `S25FL256PageRead` (lines 275-298); the second component is the content of `outData`
after the call. -/
def S25FL256PageRead (c : Consts) (bus : Bus) (fuel : Nat) (inSectorAddress : Nat)
    (inSize : Nat) (tr : List BusOp) : Option (Int × List Nat × List BusOp) :=
  let sectorAddress := sectorAddressBytes inSectorAddress
  match S25FL256BusyWait c bus fuel tr with
  | none => none
  | some bw =>
    let tr1 := bw.2 ++ [BusOp.write c.kS25FL256_Register4READ sectorAddress false]
    let r := bus.SPI3ReadRegister tr1 c.kS25FL256_Register4READ inSize
    some (r.1, r.2, tr1 ++ [BusOp.read c.kS25FL256_Register4READ inSize])

/-- Function `S25FL256GetPageSize` (lines 301-304), returning `uint16_t`. -/
def S25FL256GetPageSize (dev : S25FL256_t) : Nat := dev.pageSize % 2 ^ 16

/-- A concrete set of constants for evaluating the driver: status flags,
command codes and identification values of the S25FL256S device, error codes
chosen pairwise distinct. -/
def sampleConsts : Consts where
  kSuccess := 0
  kError_UnsupportedDevice := -1
  kError_FlashBusy := -2
  kError_FlashWNE := -3
  kError_FlashErase := -4
  kError_FlashProg := -5
  kError_AssertParam := -6
  kS25FL256_RegisterRDID := 0x9F
  kS25FL256_RegisterRDSR1 := 0x05
  kS25FL256_RegisterWREN := 0x06
  kS25FL256_Register4P4E := 0x21
  kS25FL256_Register4SE := 0xDC
  kS25FL256_Register4PP := 0x12
  kS25FL256_Register4READ := 0x13
  S25FL256_RegisterRDSR1_WIP := 0x01
  S25FL256_RegisterRDSR1_WEL := 0x02
  S25FL256_RegisterRDSR1_E_ERR := 0x20
  S25FL256_RegisterRDSR1_P_ERR := 0x40
  S25FL256_RegisterRDID_ManufacturerID := 0
  S25FL256_RegisterRDID_MemoryType := 1
  S25FL256_RegisterRDID_Capacity := 2
  S25FL256_RegisterRDID_IDCFI := 3
  S25FL256_RegisterRDID_SectorArchitecture := 4
  S25FL256_RegisterRDID_FamilyID := 5
  kS25FL256_RegisterRDID_SectorArchitecture256KB := 0x00
  kS25FL256_RegisterRDID_SectorArchitecture64KB := 0x01
  kS25FL256_PageSize512B := 512
  kS25FL256_PageSize256B := 256
  kS25FL256_4KSectorLast := 0x1F000

/-- A transport on which every call succeeds, every status read delivers the
byte `statusByte` and the identification read delivers `rdid`. -/
def constBus (statusByte : Nat) (rdid : List Nat) : Bus where
  SPI3ReadRegister := fun _ reg _ =>
    if reg = sampleConsts.kS25FL256_RegisterRDSR1 then (0, [statusByte]) else (0, rdid)
  SPI3WriteRegister := fun _ _ _ _ => 0

/-- A descriptor as left by static zero-initialisation. -/
def freshDescriptor : S25FL256_t :=
  { manufacturerID := 0, memoryType := 0, capacity := 0, IDCFI := 0,
    sectorArchitecture := 0, familyID := 0, pageSize := 0 }

/-- A transport on which every call succeeds and a read issued after `n`
earlier operations delivers entry `n` of `script` (nothing beyond its end). -/
def scriptBus (script : List (List Nat)) : Bus where
  SPI3ReadRegister := fun tr _ _ => (0, script.getD tr.length [])
  SPI3WriteRegister := fun _ _ _ _ => 0

/-- A status answer on which `S25FL256CheckStatus` keeps polling: the read
succeeded and the byte has work-in-progress set and no error flag. -/
def BusyAnswer (c : Consts) (r : Int × List Nat) : Prop :=
  r.1 = c.kSuccess ∧ byteAt r.2 0 &&& c.S25FL256_RegisterRDSR1_WIP ≠ 0 ∧
    byteAt r.2 0 &&& c.S25FL256_RegisterRDSR1_E_ERR = 0 ∧
    byteAt r.2 0 &&& c.S25FL256_RegisterRDSR1_P_ERR = 0

/-- The status code held at the end of one pass through the body of the loop
of `S25FL256CheckStatus` that did not leave through the first `break`. -/
def passStatus (c : Consts) (inStatusFlag : Nat) (status : Int) (spiData timeout : Nat) : Int :=
  if timeout > kS25FL256Timeout then c.kError_FlashBusy
  else if spiData &&& c.S25FL256_RegisterRDSR1_P_ERR ≠ 0 then c.kError_FlashProg
  else if spiData &&& c.S25FL256_RegisterRDSR1_E_ERR ≠ 0 then c.kError_FlashErase
  else if spiData &&& c.S25FL256_RegisterRDSR1_WIP = 0 ∧
      inStatusFlag = c.S25FL256_RegisterRDSR1_WEL then c.kError_FlashWNE
  else status

/-- A status answer on which `S25FL256BusyWait` keeps polling: the read
succeeded and the byte has work-in-progress set. -/
def WipAnswer (c : Consts) (r : Int × List Nat) : Prop :=
  r.1 = c.kSuccess ∧ byteAt r.2 0 &&& c.S25FL256_RegisterRDSR1_WIP ≠ 0

/-- A transport whose reads succeed with the byte `busy` while fewer than `n`
operations precede them, and afterwards fail with `code`, leaving `left` in
the caller's buffer; writes succeed. -/
def failingBus (n busy : Nat) (code : Int) (left : Nat) : Bus where
  SPI3ReadRegister := fun tr _ _ => if tr.length < n then (0, [busy]) else (code, [left])
  SPI3WriteRegister := fun _ _ _ _ => 0

/-- A transport whose reads succeed, delivering a zero byte, and whose writes
all fail with `code`. -/
def writeFailingBus (code : Int) : Bus where
  SPI3ReadRegister := fun _ _ _ => (0, [0])
  SPI3WriteRegister := fun _ _ _ _ => code

end S25FL256

/-! PCA9500 EEPROM page write (`src/drivers/pca9500.c`), with the accesses to
the local buffer `i2cData` checked against its size. -/

namespace PCA9500

/-- The constants `PCA9500EEPROMPageWrite` takes from the absent `pca9500.h`. -/
structure Consts where
  kPCA9500_SlaveAddress1 : Nat
  kPCA9500_MaxAddresses : Nat
  kPCA9500_EEPROMPageSize : Nat
  kPCA9500_EEPROMBaseAddress : Nat

/-- How a call of `PCA9500EEPROMPageWrite` ends: rejected by `mIOAssertArg`
(a macro of the absent `iomodutils.h`, taken to end the call when its
condition is false), an access to element `index` outside `i2cData`, or a
return with the status of `I2CWrite` after sending `sent`. -/
inductive Outcome where
  | argError
  | outOfBounds (index : Nat)
  | returned (status : Int) (sent : List Nat)
  deriving DecidableEq, Repr

/-- Function `PCA9500EEPROMPageWrite` (lines 97-108).  `memcpy(i2cData + 1, inData,
inSize)` writes the elements `1 .. inSize` of `i2cData` and `I2CWrite(..., i2cData,
inSize + 1)` reads the elements `0 .. inSize`; the first element accessed past the
end of the array, if any, is the one at index `kPCA9500_EEPROMPageSize + 1`. -/
def PCA9500EEPROMPageWrite (k : Consts) (I2CWrite : Nat → List Nat → Int)
    (inSlaveAddress inMemoryAddress : Nat) (inData : List Nat) (inSize : Nat) : Outcome :=
  if ¬ (inSlaveAddress ≥ k.kPCA9500_SlaveAddress1 ∧
      inSlaveAddress < k.kPCA9500_MaxAddresses) then
    Outcome.argError
  else if ¬ (inSize ≥ 1 ∧ inSize ≤ k.kPCA9500_EEPROMPageSize + 1) then
    Outcome.argError
  else
    let size := k.kPCA9500_EEPROMPageSize + 1
    let i2cData0 := (List.replicate size 0).set 0 (inMemoryAddress % 256)
    if 1 + inSize > size then
      Outcome.outOfBounds size
    else
      let i2cData1 := i2cData0.take 1 ++ inData.take inSize ++ i2cData0.drop (1 + inSize)
      if inSize + 1 > size then
        Outcome.outOfBounds size
      else
        Outcome.returned
          (I2CWrite (k.kPCA9500_EEPROMBaseAddress ||| inSlaveAddress) (i2cData1.take (inSize + 1)))
          (i2cData1.take (inSize + 1))

/-- A concrete set of constants: eight slave addresses, the four-byte EEPROM
page of the PCA9500 and its EEPROM base address. -/
def sampleConsts : Consts where
  kPCA9500_SlaveAddress1 := 0
  kPCA9500_MaxAddresses := 8
  kPCA9500_EEPROMPageSize := 4
  kPCA9500_EEPROMBaseAddress := 0x50

end PCA9500

namespace S25FL256

/-! ## Auxiliary facts about the polling loops -/

theorem statusReads_succ (c : Consts) (n : Nat) :
    statusReads c n ++ [BusOp.read c.kS25FL256_RegisterRDSR1 1] = statusReads c (n + 1) := by
  simp [statusReads, List.replicate_succ']

theorem land_ne_zero_left {a b : Nat} (h : a &&& b ≠ 0) : a ≠ 0 := by
  intro ha
  apply h
  simp [ha]

theorem checkStatusLoop_busy (c : Consts) (bus : Bus) (flag : Nat) (tr : List BusOp) :
    ∀ m j fuel, (∀ i, j ≤ i → i < j + m → BusyAnswer c (statusResp c bus tr i)) →
      j + m ≤ kS25FL256Timeout + 1 →
      checkStatusLoop c bus flag (fuel + m) (statusResp c bus tr j).1
          (byteAt (statusResp c bus tr j).2 0) j (tr ++ statusReads c (j + 1)) =
        checkStatusLoop c bus flag fuel (statusResp c bus tr (j + m)).1
          (byteAt (statusResp c bus tr (j + m)).2 0) (j + m)
          (tr ++ statusReads c (j + m + 1)) := by
  intro m
  induction m with
  | zero => intro j fuel _ _; rfl
  | succ m ih =>
    intro j fuel hbusy hle
    obtain ⟨hs, hwip, he, hp⟩ := hbusy j (Nat.le_refl j) (by omega)
    have hnz := land_ne_zero_left hwip
    have hto : ¬ j > kS25FL256Timeout := by omega
    have hmod : (j + 1) % 2 ^ 32 = j + 1 := by
      apply Nat.mod_eq_of_lt
      simp only [kS25FL256Timeout] at hle
      omega
    have hstep := ih (j + 1) fuel (fun i h1 h2 => hbusy i (by omega) (by omega)) (by omega)
    rw [show fuel + (m + 1) = (fuel + m) + 1 by omega]
    rw [checkStatusLoop]
    simp only [hnz, hwip, he, hp, hs, hto, hmod, ne_eq, not_true_eq_false, not_false_eq_true,
      if_true, if_false, false_and, and_false]
    rw [List.append_assoc, statusReads_succ]
    rw [show j + (m + 1) = j + 1 + m by omega]
    exact hstep

theorem statusResp_zero (c : Consts) (bus : Bus) (tr : List BusOp) :
    statusResp c bus tr 0 = bus.SPI3ReadRegister tr c.kS25FL256_RegisterRDSR1 1 := by
  simp [statusResp, statusReads]

theorem statusReads_one (c : Consts) :
    statusReads c 1 = [BusOp.read c.kS25FL256_RegisterRDSR1 1] := rfl

theorem checkStatus_busy_run (c : Consts) (bus : Bus) (flag : Nat) (tr : List BusOp)
    (N fuel : Nat) (hN : N ≤ kS25FL256Timeout + 1)
    (hbusy : ∀ i, i < N → BusyAnswer c (statusResp c bus tr i))
    (hlast : (statusResp c bus tr N).1 = c.kSuccess) :
    S25FL256CheckStatus c bus (fuel + N) flag tr =
      checkStatusLoop c bus flag fuel (statusResp c bus tr N).1
        (byteAt (statusResp c bus tr N).2 0) N (tr ++ statusReads c (N + 1)) := by
  have h0 : (statusResp c bus tr 0).1 = c.kSuccess := by
    cases N with
    | zero => exact hlast
    | succ n => exact (hbusy 0 (by omega)).1
  have hloop := checkStatusLoop_busy c bus flag tr N 0 fuel
    (fun i _ h2 => hbusy i (by omega)) (by omega)
  simp only [Nat.zero_add] at hloop
  rw [← hloop]
  rw [statusResp_zero] at h0 ⊢
  simp [S25FL256CheckStatus, h0, statusReads_one]

theorem checkStatusLoop_ready (c : Consts) (bus : Bus) (flag fuel : Nat) (status : Int)
    (b timeout : Nat) (tr : List BusOp)
    (hwip : b &&& c.S25FL256_RegisterRDSR1_WIP = 0)
    (hwel : b &&& c.S25FL256_RegisterRDSR1_WEL ≠ 0) :
    checkStatusLoop c bus flag (fuel + 1) status b timeout tr = some (status, tr) := by
  have hnz := land_ne_zero_left hwel
  rw [checkStatusLoop]
  simp [hnz, hwip, hwel]

theorem checkStatusLoop_idle (c : Consts) (bus : Bus) (flag fuel : Nat) (status : Int)
    (timeout : Nat) (tr : List BusOp) :
    checkStatusLoop c bus flag (fuel + 1) status 0 timeout tr = some (status, tr) := by
  rw [checkStatusLoop]
  simp

theorem checkStatusLoop_timeout (c : Consts) (bus : Bus) (flag fuel : Nat) (status : Int)
    (b timeout : Nat) (tr : List BusOp) (hnz : b ≠ 0)
    (hnr : ¬ (b &&& c.S25FL256_RegisterRDSR1_WIP = 0 ∧ b &&& c.S25FL256_RegisterRDSR1_WEL ≠ 0))
    (hto : timeout > kS25FL256Timeout) (hne : c.kError_FlashBusy ≠ c.kSuccess) :
    checkStatusLoop c bus flag (fuel + 1) status b timeout tr =
      some (c.kError_FlashBusy, tr) := by
  rw [checkStatusLoop]
  simp only [hnz, hnr, hto, hne, ne_eq, not_false_eq_true, if_true, if_false]

theorem checkStatusLoop_error (c : Consts) (bus : Bus) (flag fuel : Nat) (status : Int)
    (b timeout : Nat) (tr : List BusOp)
    (hnr : ¬ (b &&& c.S25FL256_RegisterRDSR1_WIP = 0 ∧ b &&& c.S25FL256_RegisterRDSR1_WEL ≠ 0))
    (herr : b &&& c.S25FL256_RegisterRDSR1_E_ERR ≠ 0 ∨ b &&& c.S25FL256_RegisterRDSR1_P_ERR ≠ 0)
    (hto : timeout ≤ kS25FL256Timeout)
    (hE : c.kError_FlashErase ≠ c.kSuccess) (hP : c.kError_FlashProg ≠ c.kSuccess) :
    checkStatusLoop c bus flag (fuel + 1) status b timeout tr =
      some (if b &&& c.S25FL256_RegisterRDSR1_P_ERR ≠ 0 then c.kError_FlashProg
            else c.kError_FlashErase, tr) := by
  have hnz : b ≠ 0 := by
    rcases herr with h | h
    · exact land_ne_zero_left h
    · exact land_ne_zero_left h
  have hto2 : ¬ timeout > kS25FL256Timeout := by omega
  rw [checkStatusLoop]
  by_cases hp : b &&& c.S25FL256_RegisterRDSR1_P_ERR = 0
  · have he : b &&& c.S25FL256_RegisterRDSR1_E_ERR ≠ 0 := by
      rcases herr with h | h
      · exact h
      · exact absurd hp h
    simp only [hnz, hnr, hto2, hp, he, hE, ne_eq, not_false_eq_true, not_true_eq_false,
      if_true, if_false]
  · simp only [hnz, hnr, hto2, hp, hP, ne_eq, not_false_eq_true, if_true, if_false]

theorem checkStatusLoop_wne (c : Consts) (bus : Bus) (fuel : Nat) (status : Int)
    (b timeout : Nat) (tr : List BusOp) (hnz : b ≠ 0)
    (hwip : b &&& c.S25FL256_RegisterRDSR1_WIP = 0)
    (hwel : b &&& c.S25FL256_RegisterRDSR1_WEL = 0)
    (he : b &&& c.S25FL256_RegisterRDSR1_E_ERR = 0)
    (hp : b &&& c.S25FL256_RegisterRDSR1_P_ERR = 0)
    (hto : timeout ≤ kS25FL256Timeout) (hne : c.kError_FlashWNE ≠ c.kSuccess) :
    checkStatusLoop c bus c.S25FL256_RegisterRDSR1_WEL (fuel + 1) status b timeout tr =
      some (c.kError_FlashWNE, tr) := by
  have hto2 : ¬ timeout > kS25FL256Timeout := by omega
  rw [checkStatusLoop]
  simp only [hnz, hwip, hwel, he, hp, hto2, hne, ne_eq, not_false_eq_true, not_true_eq_false,
    if_true, if_false, and_false, and_self]

theorem statusReads_cons (c : Consts) (n : Nat) :
    BusOp.read c.kS25FL256_RegisterRDSR1 1 :: statusReads c n = statusReads c (n + 1) := by
  simp [statusReads, List.replicate_succ]

theorem statusReads_zero (c : Consts) : statusReads c 0 = [] := rfl

theorem checkStatusLoop_succ (c : Consts) (bus : Bus) (flag fuel : Nat) (status : Int)
    (b timeout : Nat) (tr : List BusOp) :
    checkStatusLoop c bus flag (fuel + 1) status b timeout tr =
      if b = 0 then some (status, tr)
      else if b &&& c.S25FL256_RegisterRDSR1_WIP = 0 ∧
          b &&& c.S25FL256_RegisterRDSR1_WEL ≠ 0 then some (status, tr)
      else if passStatus c flag status b timeout ≠ c.kSuccess then
        some (passStatus c flag status b timeout, tr)
      else
        checkStatusLoop c bus flag fuel
          (bus.SPI3ReadRegister tr c.kS25FL256_RegisterRDSR1 1).1
          (byteAt (bus.SPI3ReadRegister tr c.kS25FL256_RegisterRDSR1 1).2 0)
          ((timeout + 1) % 2 ^ 32) (tr ++ [BusOp.read c.kS25FL256_RegisterRDSR1 1]) := by
  rw [checkStatusLoop]
  by_cases hb : b = 0
  · simp [hb]
  · by_cases hr : b &&& c.S25FL256_RegisterRDSR1_WIP = 0 ∧
        b &&& c.S25FL256_RegisterRDSR1_WEL ≠ 0
    · simp only [hb, hr, ne_eq, not_false_eq_true, if_true, if_false, and_self]
    · have hps : passStatus c flag status b timeout =
          (if timeout > kS25FL256Timeout then c.kError_FlashBusy
           else if b &&& c.S25FL256_RegisterRDSR1_P_ERR ≠ 0 then c.kError_FlashProg
           else if b &&& c.S25FL256_RegisterRDSR1_E_ERR ≠ 0 then c.kError_FlashErase
           else if b &&& c.S25FL256_RegisterRDSR1_WIP = 0 ∧
               flag = c.S25FL256_RegisterRDSR1_WEL then c.kError_FlashWNE
           else status) := rfl
      simp only [hb, hr, ne_eq, not_false_eq_true, if_true, if_false]
      rw [hps]

theorem checkStatusLoop_terminates (c : Consts) (bus : Bus) (flag : Nat)
    (hne : c.kError_FlashBusy ≠ c.kSuccess) :
    ∀ fuel timeout status b tr, timeout ≤ kS25FL256Timeout + 1 →
      kS25FL256Timeout + 2 ≤ fuel + timeout →
      ∃ st k, checkStatusLoop c bus flag fuel status b timeout tr =
          some (st, tr ++ statusReads c k) ∧ k + timeout ≤ kS25FL256Timeout + 1 := by
  intro fuel
  induction fuel with
  | zero => intro timeout _ _ _ h1 h2; omega
  | succ fuel ih =>
    intro timeout status b tr h1 h2
    rw [checkStatusLoop_succ]
    by_cases hb : b = 0
    · exact ⟨status, 0, by simp [hb, statusReads_zero], by omega⟩
    by_cases hr : b &&& c.S25FL256_RegisterRDSR1_WIP = 0 ∧
        b &&& c.S25FL256_RegisterRDSR1_WEL ≠ 0
    · exact ⟨status, 0, by simp [hb, hr, statusReads_zero], by omega⟩
    by_cases hs : passStatus c flag status b timeout ≠ c.kSuccess
    · exact ⟨passStatus c flag status b timeout, 0,
        by rw [if_neg hb, if_neg hr, if_pos hs, statusReads_zero, List.append_nil],
        by omega⟩
    have hto : timeout ≤ kS25FL256Timeout := by
      by_contra hcon
      have hgt : timeout > kS25FL256Timeout := by omega
      apply hs
      simp only [passStatus, hgt, if_true]
      exact hne
    have hmod : (timeout + 1) % 2 ^ 32 = timeout + 1 := by
      apply Nat.mod_eq_of_lt
      simp only [kS25FL256Timeout] at hto
      omega
    obtain ⟨st, k, hk, hle⟩ := ih (timeout + 1)
      (bus.SPI3ReadRegister tr c.kS25FL256_RegisterRDSR1 1).1
      (byteAt (bus.SPI3ReadRegister tr c.kS25FL256_RegisterRDSR1 1).2 0)
      (tr ++ [BusOp.read c.kS25FL256_RegisterRDSR1 1]) (by omega) (by omega)
    refine ⟨st, k + 1, ?_, by omega⟩
    rw [if_neg hb, if_neg hr, if_neg hs, hmod]
    rw [hk, List.append_assoc, List.singleton_append, statusReads_cons]

theorem S25FL256CheckStatus_terminates (c : Consts) (bus : Bus) (flag fuel : Nat)
    (tr : List BusOp) (hne : c.kError_FlashBusy ≠ c.kSuccess)
    (hfuel : kS25FL256Timeout + 2 ≤ fuel) :
    ∃ st k, S25FL256CheckStatus c bus fuel flag tr = some (st, tr ++ statusReads c k) ∧
      1 ≤ k ∧ k ≤ kS25FL256Timeout + 2 := by
  by_cases h : (bus.SPI3ReadRegister tr c.kS25FL256_RegisterRDSR1 1).1 ≠ c.kSuccess
  · exact ⟨(bus.SPI3ReadRegister tr c.kS25FL256_RegisterRDSR1 1).1, 1,
      by simp [S25FL256CheckStatus, h, statusReads_one], by omega, by omega⟩
  · obtain ⟨st, k, hk, hle⟩ := checkStatusLoop_terminates c bus flag hne fuel 0
      (bus.SPI3ReadRegister tr c.kS25FL256_RegisterRDSR1 1).1
      (byteAt (bus.SPI3ReadRegister tr c.kS25FL256_RegisterRDSR1 1).2 0)
      (tr ++ [BusOp.read c.kS25FL256_RegisterRDSR1 1]) (by omega) (by omega)
    refine ⟨st, k + 1, ?_, by omega, by omega⟩
    simp only [S25FL256CheckStatus, h, if_false]
    rw [hk, List.append_assoc, List.singleton_append, statusReads_cons]

theorem busyWaitLoop_terminates (c : Consts) (bus : Bus) :
    ∀ fuel timeout status b tr, timeout ≤ kS25FL256Timeout + 1 →
      kS25FL256Timeout + 2 ≤ fuel + timeout →
      ∃ st k, busyWaitLoop c bus fuel status b timeout tr =
          some (st, tr ++ statusReads c k) ∧ k + timeout ≤ kS25FL256Timeout + 2 := by
  intro fuel
  induction fuel with
  | zero => intro timeout _ _ _ h1 h2; omega
  | succ fuel ih =>
    intro timeout status b tr h1 h2
    rw [busyWaitLoop]
    by_cases hb : b &&& c.S25FL256_RegisterRDSR1_WIP ≠ 0
    swap
    · exact ⟨status, 0, by rw [if_neg hb, statusReads_zero, List.append_nil],
        by omega⟩
    by_cases hto : timeout > kS25FL256Timeout
    · exact ⟨c.kError_FlashBusy, 1, by rw [if_pos hb, if_pos hto, statusReads_one],
        by omega⟩
    by_cases hs : (bus.SPI3ReadRegister tr c.kS25FL256_RegisterRDSR1 1).1 ≠ c.kSuccess
    · exact ⟨(bus.SPI3ReadRegister tr c.kS25FL256_RegisterRDSR1 1).1, 1,
        by rw [if_pos hb, if_neg hto, if_pos hs, statusReads_one], by omega⟩
    have hmod : (timeout + 1) % 2 ^ 32 = timeout + 1 := by
      apply Nat.mod_eq_of_lt
      simp only [kS25FL256Timeout] at hto
      omega
    obtain ⟨st, k, hk, hle⟩ := ih (timeout + 1)
      (bus.SPI3ReadRegister tr c.kS25FL256_RegisterRDSR1 1).1
      (byteAt (bus.SPI3ReadRegister tr c.kS25FL256_RegisterRDSR1 1).2 0)
      (tr ++ [BusOp.read c.kS25FL256_RegisterRDSR1 1]) (by omega) (by omega)
    refine ⟨st, k + 1, ?_, by omega⟩
    rw [if_pos hb, if_neg hto, if_neg hs, hmod]
    rw [hk, List.append_assoc, List.singleton_append, statusReads_cons]

theorem S25FL256BusyWait_terminates (c : Consts) (bus : Bus) (fuel : Nat)
    (tr : List BusOp) (hfuel : kS25FL256Timeout + 2 ≤ fuel) :
    ∃ st k, S25FL256BusyWait c bus fuel tr = some (st, tr ++ statusReads c k) ∧
      1 ≤ k ∧ k ≤ kS25FL256Timeout + 3 := by
  by_cases h : (bus.SPI3ReadRegister tr c.kS25FL256_RegisterRDSR1 1).1 ≠ c.kSuccess
  · exact ⟨(bus.SPI3ReadRegister tr c.kS25FL256_RegisterRDSR1 1).1, 1,
      by simp [S25FL256BusyWait, h, statusReads_one], by omega, by omega⟩
  · obtain ⟨st, k, hk, hle⟩ := busyWaitLoop_terminates c bus fuel 0
      (bus.SPI3ReadRegister tr c.kS25FL256_RegisterRDSR1 1).1
      (byteAt (bus.SPI3ReadRegister tr c.kS25FL256_RegisterRDSR1 1).2 0)
      (tr ++ [BusOp.read c.kS25FL256_RegisterRDSR1 1]) (by omega) (by omega)
    refine ⟨st, k + 1, ?_, by omega, by omega⟩
    simp only [S25FL256BusyWait, h, if_false]
    rw [hk, List.append_assoc, List.singleton_append, statusReads_cons]


/-! ## Status check (`S25FL256CheckStatus`) -/

/-- C1 (evaluation at a failing input): with a status register that reads `0x20`
(erase error, not busy, write enable not latched) the status check ends in
the erase-error code, and still the 4P4E, 4SE and 4PP commands are written to
the bus by `S25FL256Erase4K`, `S25FL256Erase64K` and `S25FL256PageWrite`. -/
theorem C1_command_issued_after_failed_check :
    S25FL256CheckStatus sampleConsts (constBus 0x20 []) 10 2 [BusOp.write 0x06 [] true] =
        some (sampleConsts.kError_FlashErase, [BusOp.write 0x06 [] true, BusOp.read 0x05 1]) ∧
      (S25FL256Erase4K sampleConsts (constBus 0x20 []) 10 0x1000 []).map Prod.snd =
        some [BusOp.write 0x06 [] true, BusOp.read 0x05 1,
              BusOp.write 0x21 [0x00, 0x00, 0x10, 0x00] true] ∧
      (S25FL256Erase64K sampleConsts (constBus 0x20 []) 10 0x10000 []).map Prod.snd =
        some [BusOp.write 0x06 [] true, BusOp.read 0x05 1,
              BusOp.write 0xDC [0x00, 0x01, 0x00, 0x00] true] ∧
      (S25FL256PageWrite sampleConsts (constBus 0x20 []) 10
          { freshDescriptor with pageSize := 256 } 0x1000 [0xAA, 0xBB] 2 []).map Prod.snd =
        some [BusOp.read 0x05 1, BusOp.write 0x06 [] true, BusOp.read 0x05 1,
              BusOp.write 0x12 [0x00, 0x00, 0x10, 0x00] false,
              BusOp.write 0x12 [0xAA, 0xBB] true] := by
  decide

/-- C2: when the first `N` status reads (`N` not above the ceiling) succeed
with work-in-progress set and no error flag, and read `N + 1` succeeds with
work-in-progress clear and write-enable-latched set, `S25FL256CheckStatus`
returns success after exactly `N + 1` status reads, and the code it returns
is neither the erase-error nor the program-error code. -/
theorem C2_checkStatus_succeeds_after_busy_reads (c : Consts) (bus : Bus)
    (inStatusFlag : Nat) (tr : List BusOp) (N fuel : Nat)
    (hN : N ≤ kS25FL256Timeout)
    (hbusy : ∀ i, i < N → BusyAnswer c (statusResp c bus tr i))
    (hok : (statusResp c bus tr N).1 = c.kSuccess)
    (hwip : byteAt (statusResp c bus tr N).2 0 &&& c.S25FL256_RegisterRDSR1_WIP = 0)
    (hwel : byteAt (statusResp c bus tr N).2 0 &&& c.S25FL256_RegisterRDSR1_WEL ≠ 0)
    (hE : c.kError_FlashErase ≠ c.kSuccess) (hP : c.kError_FlashProg ≠ c.kSuccess)
    (hfuel : N + 1 ≤ fuel) :
    ∃ status, S25FL256CheckStatus c bus fuel inStatusFlag tr =
          some (status, tr ++ statusReads c (N + 1)) ∧
      status = c.kSuccess ∧ status ≠ c.kError_FlashErase ∧ status ≠ c.kError_FlashProg := by
  obtain ⟨f, rfl⟩ : ∃ f, fuel = (f + 1) + N := ⟨fuel - (N + 1), by omega⟩
  refine ⟨c.kSuccess, ?_, rfl, Ne.symm hE, Ne.symm hP⟩
  rw [checkStatus_busy_run c bus inStatusFlag tr N (f + 1) (by omega) hbusy hok,
    checkStatusLoop_ready c bus inStatusFlag f _ _ N _ hwip hwel, hok]

/-- C2 instance: two busy reads (`0x03`, `0x01`), then `0x02`. -/
theorem C2_checkStatus_succeeds_after_busy_reads_witness :
    ∃ status, S25FL256CheckStatus sampleConsts (scriptBus [[0x03], [0x01], [0x02]]) 3 2 [] =
          some (status, [] ++ statusReads sampleConsts (2 + 1)) ∧
      status = sampleConsts.kSuccess ∧ status ≠ sampleConsts.kError_FlashErase ∧
      status ≠ sampleConsts.kError_FlashProg :=
  C2_checkStatus_succeeds_after_busy_reads sampleConsts (scriptBus [[0x03], [0x01], [0x02]])
    2 [] 2 3 (by decide)
    (by
      intro i hi
      have hcases : i = 0 ∨ i = 1 := by omega
      rcases hcases with rfl | rfl
      · exact ⟨by decide, by decide, by decide, by decide⟩
      · exact ⟨by decide, by decide, by decide, by decide⟩)
    (by decide) (by decide) (by decide) (by decide) (by decide) (by decide)

/-- Shared by the statements about a status register that never clears its
work-in-progress flag: the check times out after `kS25FL256Timeout + 2` reads. -/
theorem checkStatus_never_clears (c : Consts) (bus : Bus) (inStatusFlag : Nat)
    (tr : List BusOp) (fuel : Nat)
    (hbusy : ∀ i, i < kS25FL256Timeout + 2 → BusyAnswer c (statusResp c bus tr i))
    (hne : c.kError_FlashBusy ≠ c.kSuccess) (hfuel : kS25FL256Timeout + 2 ≤ fuel) :
    S25FL256CheckStatus c bus fuel inStatusFlag tr =
      some (c.kError_FlashBusy, tr ++ statusReads c (kS25FL256Timeout + 2)) := by
  obtain ⟨f, rfl⟩ : ∃ f, fuel = (f + 1) + (kS25FL256Timeout + 1) :=
    ⟨fuel - (kS25FL256Timeout + 2), by omega⟩
  obtain ⟨hs, hwip, _, _⟩ := hbusy (kS25FL256Timeout + 1) (by omega)
  rw [checkStatus_busy_run c bus inStatusFlag tr (kS25FL256Timeout + 1) (f + 1)
    (by omega) (fun i hi => hbusy i (by omega)) hs]
  exact checkStatusLoop_timeout c bus inStatusFlag f _ _ _ _ (land_ne_zero_left hwip)
    (fun h => hwip h.1) (by omega) hne

theorem constBus_statusResp (b : Nat) (rdid : List Nat) (tr : List BusOp) (i : Nat) :
    statusResp sampleConsts (constBus b rdid) tr i = (0, [b]) := rfl

theorem constBus_busyAnswer (tr : List BusOp) (i : Nat) :
    BusyAnswer sampleConsts (statusResp sampleConsts (constBus 0x01 []) tr i) := by
  rw [constBus_statusResp]
  exact ⟨by decide, by decide, by decide, by decide⟩

theorem statusReads_length (c : Consts) (n : Nat) : (statusReads c n).length = n := by
  simp [statusReads]

theorem checkStatus_out_of_fuel (c : Consts) (bus : Bus) (inStatusFlag : Nat)
    (tr : List BusOp) (fuel : Nat) (hfuel : fuel ≤ kS25FL256Timeout + 1)
    (hbusy : ∀ i, i ≤ fuel → BusyAnswer c (statusResp c bus tr i)) :
    S25FL256CheckStatus c bus fuel inStatusFlag tr = none := by
  have h := checkStatus_busy_run c bus inStatusFlag tr fuel 0 hfuel
    (fun i hi => hbusy i (by omega)) (hbusy fuel (Nat.le_refl fuel)).1
  rw [Nat.zero_add] at h
  rw [h, checkStatusLoop]

/-- C3 (as amended): when every status read succeeds and reports
work-in-progress set with no error flag, `S25FL256CheckStatus` returns
`kError_FlashBusy` after exactly 65538 status reads (the ceiling plus two). -/
theorem C3_checkStatus_times_out_after_65538_reads (c : Consts) (bus : Bus)
    (inStatusFlag : Nat) (tr : List BusOp) (fuel : Nat)
    (hbusy : ∀ i, BusyAnswer c (statusResp c bus tr i))
    (hne : c.kError_FlashBusy ≠ c.kSuccess) (hfuel : 65538 ≤ fuel) :
    S25FL256CheckStatus c bus fuel inStatusFlag tr =
        some (c.kError_FlashBusy, tr ++ statusReads c 65538) ∧
      (statusReads c 65538).length = 65538 := by
  refine ⟨?_, statusReads_length c 65538⟩
  exact checkStatus_never_clears c bus inStatusFlag tr fuel (fun i _ => hbusy i) hne hfuel

/-- C3 instance: the status register always reads `0x01`. -/
theorem C3_checkStatus_times_out_after_65538_reads_witness :
    S25FL256CheckStatus sampleConsts (constBus 0x01 []) 65538 2 [] =
        some (sampleConsts.kError_FlashBusy, [] ++ statusReads sampleConsts 65538) ∧
      (statusReads sampleConsts 65538).length = 65538 :=
  C3_checkStatus_times_out_after_65538_reads sampleConsts (constBus 0x01 []) 2 [] 65538
    (constBus_busyAnswer []) (by decide) (Nat.le_refl 65538)

/-- C3 (as stated, refuted): with a status register that always reads `0x01`
the check returns `kError_FlashBusy` after 65538 status reads, and for no
amount of fuel does it return after 65536 reads. -/
theorem C3_counterexample_65536_reads :
    S25FL256CheckStatus sampleConsts (constBus 0x01 []) 65538 2 [] =
        some (sampleConsts.kError_FlashBusy, statusReads sampleConsts 65538) ∧
      ¬ ∃ fuel, S25FL256CheckStatus sampleConsts (constBus 0x01 []) fuel 2 [] =
        some (sampleConsts.kError_FlashBusy, statusReads sampleConsts 65536) := by
  have hrun : ∀ fuel, kS25FL256Timeout + 2 ≤ fuel →
      S25FL256CheckStatus sampleConsts (constBus 0x01 []) fuel 2 [] =
        some (sampleConsts.kError_FlashBusy, statusReads sampleConsts 65538) := by
    intro fuel hfuel
    have h := checkStatus_never_clears sampleConsts (constBus 0x01 []) 2 [] fuel
      (fun i _ => constBus_busyAnswer [] i) (by decide) hfuel
    rw [List.nil_append] at h
    exact h
  refine ⟨hrun 65538 (by decide), ?_⟩
  rintro ⟨fuel, hfuel⟩
  by_cases hlt : kS25FL256Timeout + 2 ≤ fuel
  · rw [hrun fuel hlt] at hfuel
    have hlen := congrArg List.length (Prod.mk.inj (Option.some.inj hfuel)).2
    rw [statusReads_length, statusReads_length] at hlen
    exact absurd hlen (by decide)
  · rw [checkStatus_out_of_fuel sampleConsts (constBus 0x01 []) 2 [] fuel (by omega)
      (fun i _ => constBus_busyAnswer [] i)] at hfuel
    exact Option.noConfusion hfuel

/-- C4 (as amended): a successfully read non-zero status byte with
work-in-progress clear, write-enable-latched clear and no error flag, read
after at most 65536 busy reads, makes `S25FL256CheckStatus` called with the
write-enable-latched flag return `kError_FlashWNE`, which is not success,
without a further read. -/
theorem C4_checkStatus_write_not_enabled (c : Consts) (bus : Bus) (tr : List BusOp)
    (N fuel : Nat) (hN : N ≤ kS25FL256Timeout)
    (hbusy : ∀ i, i < N → BusyAnswer c (statusResp c bus tr i))
    (hok : (statusResp c bus tr N).1 = c.kSuccess)
    (hnz : byteAt (statusResp c bus tr N).2 0 ≠ 0)
    (hwip : byteAt (statusResp c bus tr N).2 0 &&& c.S25FL256_RegisterRDSR1_WIP = 0)
    (hwel : byteAt (statusResp c bus tr N).2 0 &&& c.S25FL256_RegisterRDSR1_WEL = 0)
    (he : byteAt (statusResp c bus tr N).2 0 &&& c.S25FL256_RegisterRDSR1_E_ERR = 0)
    (hp : byteAt (statusResp c bus tr N).2 0 &&& c.S25FL256_RegisterRDSR1_P_ERR = 0)
    (hne : c.kError_FlashWNE ≠ c.kSuccess) (hfuel : N + 1 ≤ fuel) :
    ∃ status, S25FL256CheckStatus c bus fuel c.S25FL256_RegisterRDSR1_WEL tr =
          some (status, tr ++ statusReads c (N + 1)) ∧
      status = c.kError_FlashWNE ∧ status ≠ c.kSuccess := by
  obtain ⟨f, rfl⟩ : ∃ f, fuel = (f + 1) + N := ⟨fuel - (N + 1), by omega⟩
  refine ⟨c.kError_FlashWNE, ?_, rfl, hne⟩
  rw [checkStatus_busy_run c bus _ tr N (f + 1) (by omega) hbusy hok,
    checkStatusLoop_wne c bus f _ _ N _ hnz hwip hwel he hp hN hne]

/-- C4 instance: the first status read delivers `0x04`. -/
theorem C4_checkStatus_write_not_enabled_witness :
    ∃ status, S25FL256CheckStatus sampleConsts (constBus 0x04 []) 1
          sampleConsts.S25FL256_RegisterRDSR1_WEL [] =
          some (status, [] ++ statusReads sampleConsts (0 + 1)) ∧
      status = sampleConsts.kError_FlashWNE ∧ status ≠ sampleConsts.kSuccess :=
  C4_checkStatus_write_not_enabled sampleConsts (constBus 0x04 []) [] 0 1 (by decide)
    (fun i hi => absurd hi (Nat.not_lt_zero i)) (by decide) (by decide) (by decide)
    (by decide) (by decide) (by decide) (by decide) (by decide)

/-- C4 (as stated, refuted): both status bytes below have work-in-progress
and write-enable-latched clear; on `0x20` (erase error) the check called with
the write-enable-latched flag returns the erase-error code, not
`kError_FlashWNE`, and on `0x00` it returns success. -/
theorem C4_counterexample_not_wne :
    S25FL256CheckStatus sampleConsts (constBus 0x20 []) 10
        sampleConsts.S25FL256_RegisterRDSR1_WEL [] =
        some (sampleConsts.kError_FlashErase, [BusOp.read 0x05 1]) ∧
      sampleConsts.kError_FlashErase ≠ sampleConsts.kError_FlashWNE ∧
      S25FL256CheckStatus sampleConsts (constBus 0x00 []) 10
        sampleConsts.S25FL256_RegisterRDSR1_WEL [] =
        some (sampleConsts.kSuccess, [BusOp.read 0x05 1]) ∧
      sampleConsts.kSuccess ≠ sampleConsts.kError_FlashWNE := by
  decide

/-- C5 (as amended): a successfully read status byte with an error flag set,
other than a byte with work-in-progress clear and write-enable-latched set,
read after at most 65536 busy reads, stops `S25FL256CheckStatus` without a
further read; it returns the program-error code when the program-error flag
is set and the erase-error code otherwise, never success. -/
theorem C5_checkStatus_error_flag (c : Consts) (bus : Bus) (inStatusFlag : Nat)
    (tr : List BusOp) (N fuel : Nat) (hN : N ≤ kS25FL256Timeout)
    (hbusy : ∀ i, i < N → BusyAnswer c (statusResp c bus tr i))
    (hok : (statusResp c bus tr N).1 = c.kSuccess)
    (hnr : ¬ (byteAt (statusResp c bus tr N).2 0 &&& c.S25FL256_RegisterRDSR1_WIP = 0 ∧
      byteAt (statusResp c bus tr N).2 0 &&& c.S25FL256_RegisterRDSR1_WEL ≠ 0))
    (herr : byteAt (statusResp c bus tr N).2 0 &&& c.S25FL256_RegisterRDSR1_E_ERR ≠ 0 ∨
      byteAt (statusResp c bus tr N).2 0 &&& c.S25FL256_RegisterRDSR1_P_ERR ≠ 0)
    (hE : c.kError_FlashErase ≠ c.kSuccess) (hP : c.kError_FlashProg ≠ c.kSuccess)
    (hfuel : N + 1 ≤ fuel) :
    ∃ status, S25FL256CheckStatus c bus fuel inStatusFlag tr =
          some (status, tr ++ statusReads c (N + 1)) ∧
      status = (if byteAt (statusResp c bus tr N).2 0 &&& c.S25FL256_RegisterRDSR1_P_ERR ≠ 0
        then c.kError_FlashProg else c.kError_FlashErase) ∧
      status ≠ c.kSuccess := by
  obtain ⟨f, rfl⟩ : ∃ f, fuel = (f + 1) + N := ⟨fuel - (N + 1), by omega⟩
  refine ⟨_, ?_, rfl, ?_⟩
  · rw [checkStatus_busy_run c bus _ tr N (f + 1) (by omega) hbusy hok,
      checkStatusLoop_error c bus _ f _ _ N _ hnr herr hN hE hP]
  · split_ifs
    · exact hP
    · exact hE

/-- C5 instance: one busy read `0x01`, then `0x21` (busy with erase error). -/
theorem C5_checkStatus_error_flag_witness :
    ∃ status, S25FL256CheckStatus sampleConsts (scriptBus [[0x01], [0x21]]) 2 2 [] =
          some (status, [] ++ statusReads sampleConsts (1 + 1)) ∧
      status = (if byteAt (statusResp sampleConsts (scriptBus [[0x01], [0x21]]) [] 1).2 0 &&&
          sampleConsts.S25FL256_RegisterRDSR1_P_ERR ≠ 0
        then sampleConsts.kError_FlashProg else sampleConsts.kError_FlashErase) ∧
      status ≠ sampleConsts.kSuccess :=
  C5_checkStatus_error_flag sampleConsts (scriptBus [[0x01], [0x21]]) 2 [] 1 2 (by decide)
    (by
      intro i hi
      have hi0 : i = 0 := by omega
      subst hi0
      exact ⟨by decide, by decide, by decide, by decide⟩)
    (by decide) (by decide) (by decide) (by decide) (by decide) (by decide)

/-- C5 (as stated, refuted): on the status byte `0x22` (erase error flagged,
write-enable-latched set, not busy) the check returns success; on `0x61`
(erase error and program error flagged) it returns the program-error code,
not the erase-error code. -/
theorem C5_counterexample_error_flag_success :
    S25FL256CheckStatus sampleConsts (constBus 0x22 []) 10
        sampleConsts.S25FL256_RegisterRDSR1_WEL [] =
        some (sampleConsts.kSuccess, [BusOp.read 0x05 1]) ∧
      0x22 &&& sampleConsts.S25FL256_RegisterRDSR1_E_ERR ≠ 0 ∧
      S25FL256CheckStatus sampleConsts (constBus 0x61 []) 10
        sampleConsts.S25FL256_RegisterRDSR1_WEL [] =
        some (sampleConsts.kError_FlashProg, [BusOp.read 0x05 1]) ∧
      0x61 &&& sampleConsts.S25FL256_RegisterRDSR1_E_ERR ≠ 0 ∧
      sampleConsts.kError_FlashProg ≠ sampleConsts.kError_FlashErase := by
  decide

/-! ## Erase, program and initialisation -/

theorem sectorAddressBytes_eq (a : Nat) :
    sectorAddressBytes a =
      [a / 2 ^ 24 % 256, a / 2 ^ 16 % 256, a / 2 ^ 8 % 256, a % 256] := by
  have hand : a &&& 0xFF = a % 2 ^ 8 := Nat.and_pow_two_sub_one_eq_mod a 8
  simp only [sectorAddressBytes, Nat.shiftRight_eq_div_pow, hand]
  norm_num

theorem bigEndianValue_sectorAddressBytes (a : Nat) (h32 : a < 2 ^ 32) :
    bigEndianValue (sectorAddressBytes a) = a := by
  rw [sectorAddressBytes_eq]
  simp only [bigEndianValue, List.foldl_cons, List.foldl_nil]
  norm_num at h32 ⊢
  omega

theorem sectorAddressBytes_bytes (a : Nat) (h32 : a < 2 ^ 32) :
    ∃ b0 b1 b2 b3, sectorAddressBytes a = [b0, b1, b2, b3] ∧
      b0 < 256 ∧ b1 < 256 ∧ b2 < 256 ∧ b3 < 256 ∧
      b0 * 2 ^ 24 + b1 * 2 ^ 16 + b2 * 2 ^ 8 + b3 = a := by
  refine ⟨a / 2 ^ 24 % 256, a / 2 ^ 16 % 256, a / 2 ^ 8 % 256, a % 256,
    sectorAddressBytes_eq a, Nat.mod_lt _ (by decide), Nat.mod_lt _ (by decide),
    Nat.mod_lt _ (by decide), Nat.mod_lt _ (by decide), ?_⟩
  norm_num at h32 ⊢
  omega

theorem S25FL256BusyWait_idle (c : Consts) (bus : Bus) (fuel : Nat) (tr : List BusOp)
    (hok : (bus.SPI3ReadRegister tr c.kS25FL256_RegisterRDSR1 1).1 = c.kSuccess)
    (hwip : byteAt (bus.SPI3ReadRegister tr c.kS25FL256_RegisterRDSR1 1).2 0 &&&
      c.S25FL256_RegisterRDSR1_WIP = 0) :
    S25FL256BusyWait c bus (fuel + 1) tr =
      some (c.kSuccess, tr ++ [BusOp.read c.kS25FL256_RegisterRDSR1 1]) := by
  unfold S25FL256BusyWait
  simp only [hok, ne_eq, not_true_eq_false, if_false]
  rw [busyWaitLoop]
  simp only [hwip, ne_eq, not_true_eq_false, if_false]

/-- C6: for an address `A` (a `uint32_t`) not above `kS25FL256_4KSectorLast`
and any transport, `S25FL256Erase4K` issues one complete zero-length write to
WREN, then only status reads, then one complete write to 4P4E whose four
payload bytes, each below 256, are `A` in big-endian order
(`b0 * 2^24 + b1 * 2^16 + b2 * 2^8 + b3 = A`), whatever the write-enable write
and the status check answered. -/
theorem C6_erase4K_one_enable_one_erase (c : Consts) (bus : Bus) (fuel A : Nat)
    (tr : List BusOp) (hA : A ≤ c.kS25FL256_4KSectorLast) (h32 : A < 2 ^ 32)
    (hne : c.kError_FlashBusy ≠ c.kSuccess) (hfuel : kS25FL256Timeout + 2 ≤ fuel) :
    ∃ status k, S25FL256Erase4K c bus fuel A tr =
        some (status, tr ++ [BusOp.write c.kS25FL256_RegisterWREN [] true] ++ statusReads c k ++
          [BusOp.write c.kS25FL256_Register4P4E (sectorAddressBytes A) true]) ∧
      (sectorAddressBytes A).length = 4 ∧ bigEndianValue (sectorAddressBytes A) = A ∧
      (∃ b0 b1 b2 b3, sectorAddressBytes A = [b0, b1, b2, b3] ∧
        b0 < 256 ∧ b1 < 256 ∧ b2 < 256 ∧ b3 < 256 ∧
        b0 * 2 ^ 24 + b1 * 2 ^ 16 + b2 * 2 ^ 8 + b3 = A) := by
  obtain ⟨st, k, hk, _, _⟩ := S25FL256CheckStatus_terminates c bus
    (c.S25FL256_RegisterRDSR1_WEL % 256) fuel
    (tr ++ [BusOp.write c.kS25FL256_RegisterWREN [] true]) hne hfuel
  refine ⟨bus.SPI3WriteRegister
    (tr ++ [BusOp.write c.kS25FL256_RegisterWREN [] true] ++ statusReads c k)
    c.kS25FL256_Register4P4E (sectorAddressBytes A) true, k, ?_, rfl,
    bigEndianValue_sectorAddressBytes A h32, sectorAddressBytes_bytes A h32⟩
  have hcond : decide (A ≥ 0 ∧ A ≤ c.kS25FL256_4KSectorLast) = true := by
    simp [hA]
  simp only [S25FL256Erase4K, mAssertParam, hcond, if_true, S25FL256WriteEnable, hk]

/-- C6 instance: address `0x1000`, idle device. -/
theorem C6_erase4K_one_enable_one_erase_witness :
    ∃ status k, S25FL256Erase4K sampleConsts (constBus 0x02 []) 65538 0x1000 [] =
        some (status, [] ++ [BusOp.write sampleConsts.kS25FL256_RegisterWREN [] true] ++
          statusReads sampleConsts k ++
          [BusOp.write sampleConsts.kS25FL256_Register4P4E (sectorAddressBytes 0x1000) true]) ∧
      (sectorAddressBytes 0x1000).length = 4 ∧
      bigEndianValue (sectorAddressBytes 0x1000) = 0x1000 ∧
      (∃ b0 b1 b2 b3, sectorAddressBytes 0x1000 = [b0, b1, b2, b3] ∧
        b0 < 256 ∧ b1 < 256 ∧ b2 < 256 ∧ b3 < 256 ∧
        b0 * 2 ^ 24 + b1 * 2 ^ 16 + b2 * 2 ^ 8 + b3 = 0x1000) :=
  C6_erase4K_one_enable_one_erase sampleConsts (constBus 0x02 []) 65538 0x1000 []
    (by decide) (by decide) (by decide) (by decide)

/-- C7 (evaluation at a failing input): with a status register that reads
`0x20` the write-enable + status-check protocol ends in the erase-error code,
while `S25FL256Erase4K` and `S25FL256Erase64K` return the success answer of
the final command write. -/
theorem C7_erase_returns_success_after_failed_check :
    (S25FL256CheckStatus sampleConsts (constBus 0x20 []) 10 2
        (S25FL256WriteEnable sampleConsts (constBus 0x20 []) []).2).map Prod.fst =
        some sampleConsts.kError_FlashErase ∧
      (S25FL256Erase4K sampleConsts (constBus 0x20 []) 10 0x1000 []).map Prod.fst =
        some sampleConsts.kSuccess ∧
      (S25FL256Erase64K sampleConsts (constBus 0x20 []) 10 0x10000 []).map Prod.fst =
        some sampleConsts.kSuccess ∧
      sampleConsts.kError_FlashErase ≠ sampleConsts.kSuccess := by
  decide

/-- C8: for data of a size not above the descriptor's page size,
`S25FL256PageWrite` (after its busy-wait, write-enable and status check,
which put only status reads and the WREN write on the bus) writes the four
big-endian address bytes (each below 256, `b0 * 2^24 + b1 * 2^16 + b2 * 2^8 +
b3 = A`) to 4PP as an incomplete packet; when that write
fails it is the last bus operation and its status is returned; when it
succeeds the data bytes follow as a complete packet to 4PP and the status of
that write is returned. -/
theorem C8_pageWrite_address_then_data (c : Consts) (bus : Bus) (fuel : Nat)
    (dev : S25FL256_t) (A : Nat) (inData : List Nat) (inSize : Nat) (tr : List BusOp)
    (hsize : inSize ≤ dev.pageSize) (h32 : A < 2 ^ 32)
    (hne : c.kError_FlashBusy ≠ c.kSuccess) (hfuel : kS25FL256Timeout + 2 ≤ fuel) :
    ∃ pre statusA statusD,
      (∃ k1 k2, pre = tr ++ statusReads c k1 ++
        [BusOp.write c.kS25FL256_RegisterWREN [] true] ++ statusReads c k2) ∧
      statusA = bus.SPI3WriteRegister pre c.kS25FL256_Register4PP (sectorAddressBytes A) false ∧
      statusD = bus.SPI3WriteRegister
        (pre ++ [BusOp.write c.kS25FL256_Register4PP (sectorAddressBytes A) false])
        c.kS25FL256_Register4PP (inData.take inSize) true ∧
      bigEndianValue (sectorAddressBytes A) = A ∧
      (∃ b0 b1 b2 b3, sectorAddressBytes A = [b0, b1, b2, b3] ∧
        b0 < 256 ∧ b1 < 256 ∧ b2 < 256 ∧ b3 < 256 ∧
        b0 * 2 ^ 24 + b1 * 2 ^ 16 + b2 * 2 ^ 8 + b3 = A) ∧
      (statusA ≠ c.kSuccess →
        S25FL256PageWrite c bus fuel dev A inData inSize tr =
          some (statusA,
            pre ++ [BusOp.write c.kS25FL256_Register4PP (sectorAddressBytes A) false])) ∧
      (statusA = c.kSuccess →
        S25FL256PageWrite c bus fuel dev A inData inSize tr =
          some (statusD,
            pre ++ [BusOp.write c.kS25FL256_Register4PP (sectorAddressBytes A) false] ++
              [BusOp.write c.kS25FL256_Register4PP (inData.take inSize) true])) := by
  obtain ⟨st1, k1, hk1, _, _⟩ := S25FL256BusyWait_terminates c bus fuel tr hfuel
  obtain ⟨st2, k2, hk2, _, _⟩ := S25FL256CheckStatus_terminates c bus
    (c.S25FL256_RegisterRDSR1_WEL % 256) fuel
    (tr ++ statusReads c k1 ++ [BusOp.write c.kS25FL256_RegisterWREN [] true]) hne hfuel
  refine ⟨_, _, _, ⟨k1, k2, rfl⟩, rfl, rfl, bigEndianValue_sectorAddressBytes A h32,
    sectorAddressBytes_bytes A h32, ?_, ?_⟩
  · intro hA
    simp only [S25FL256PageWrite, hk1, hsize, if_true, S25FL256WriteEnable, hk2]
    rw [if_pos hA]
  · intro hA
    simp only [S25FL256PageWrite, hk1, hsize, if_true, S25FL256WriteEnable, hk2]
    rw [if_neg (not_not.mpr hA)]

/-- C8 instance: three bytes written at `0x1000`, page size 256. -/
theorem C8_pageWrite_address_then_data_witness :
    ∃ pre statusA statusD,
      (∃ k1 k2, pre = [] ++ statusReads sampleConsts k1 ++
        [BusOp.write sampleConsts.kS25FL256_RegisterWREN [] true] ++
        statusReads sampleConsts k2) ∧
      statusA = (constBus 0x02 []).SPI3WriteRegister pre sampleConsts.kS25FL256_Register4PP
        (sectorAddressBytes 0x1000) false ∧
      statusD = (constBus 0x02 []).SPI3WriteRegister
        (pre ++ [BusOp.write sampleConsts.kS25FL256_Register4PP (sectorAddressBytes 0x1000) false])
        sampleConsts.kS25FL256_Register4PP ([1, 2, 3].take 3) true ∧
      bigEndianValue (sectorAddressBytes 0x1000) = 0x1000 ∧
      (∃ b0 b1 b2 b3, sectorAddressBytes 0x1000 = [b0, b1, b2, b3] ∧
        b0 < 256 ∧ b1 < 256 ∧ b2 < 256 ∧ b3 < 256 ∧
        b0 * 2 ^ 24 + b1 * 2 ^ 16 + b2 * 2 ^ 8 + b3 = 0x1000) ∧
      (statusA ≠ sampleConsts.kSuccess →
        S25FL256PageWrite sampleConsts (constBus 0x02 []) 65538
            { freshDescriptor with pageSize := 256 } 0x1000 [1, 2, 3] 3 [] =
          some (statusA, pre ++
            [BusOp.write sampleConsts.kS25FL256_Register4PP (sectorAddressBytes 0x1000) false])) ∧
      (statusA = sampleConsts.kSuccess →
        S25FL256PageWrite sampleConsts (constBus 0x02 []) 65538
            { freshDescriptor with pageSize := 256 } 0x1000 [1, 2, 3] 3 [] =
          some (statusD, pre ++
            [BusOp.write sampleConsts.kS25FL256_Register4PP (sectorAddressBytes 0x1000) false] ++
            [BusOp.write sampleConsts.kS25FL256_Register4PP ([1, 2, 3].take 3) true])) :=
  C8_pageWrite_address_then_data sampleConsts (constBus 0x02 []) 65538
    { freshDescriptor with pageSize := 256 } 0x1000 [1, 2, 3] 3 []
    (by decide) (by decide) (by decide) (by decide)

/-- C9 (as amended): for a data size above the descriptor's page size and any
transport, `S25FL256PageWrite` puts on the bus only the status-register reads
of its initial busy-wait (at least one, at most 65539), issues no write, and
returns the success status. -/
theorem C9_pageWrite_oversize_only_status_reads (c : Consts) (bus : Bus) (fuel : Nat)
    (dev : S25FL256_t) (A : Nat) (inData : List Nat) (inSize : Nat) (tr : List BusOp)
    (hsize : dev.pageSize < inSize) (hfuel : kS25FL256Timeout + 2 ≤ fuel) :
    ∃ k, 1 ≤ k ∧ k ≤ 65539 ∧
      S25FL256PageWrite c bus fuel dev A inData inSize tr =
        some (c.kSuccess, tr ++ statusReads c k) := by
  obtain ⟨st, k, hk, h1, h2⟩ := S25FL256BusyWait_terminates c bus fuel tr hfuel
  refine ⟨k, h1, h2, ?_⟩
  have hnot : ¬ inSize ≤ dev.pageSize := by omega
  simp only [S25FL256PageWrite, hk, hnot, if_false]

/-- C9 instance: 300 bytes against a page size of 256. -/
theorem C9_pageWrite_oversize_only_status_reads_witness :
    ∃ k, 1 ≤ k ∧ k ≤ 65539 ∧
      S25FL256PageWrite sampleConsts (constBus 0x00 []) 65538
          { freshDescriptor with pageSize := 256 } 0x1000 (List.replicate 300 0xFF) 300 [] =
        some (sampleConsts.kSuccess, [] ++ statusReads sampleConsts k) :=
  C9_pageWrite_oversize_only_status_reads sampleConsts (constBus 0x00 []) 65538
    { freshDescriptor with pageSize := 256 } 0x1000 (List.replicate 300 0xFF) 300 []
    (by decide) (by decide)

/-- C9 (as stated, refuted): with 300 bytes against a page size of 256 and an
idle device, `S25FL256PageWrite` returns success but has performed one read
of status register 1, so the bus trace is not empty. -/
theorem C9_counterexample_status_read_issued :
    S25FL256PageWrite sampleConsts (constBus 0x00 []) 10
        { freshDescriptor with pageSize := 256 } 0x1000 (List.replicate 300 0xFF) 300 [] =
        some (sampleConsts.kSuccess, [BusOp.read 0x05 1]) ∧
      [BusOp.read 0x05 1] ≠ ([] : List BusOp) := by
  decide

/-- C10 (as amended): with the device idle and the identification read
succeeding with a manufacturer byte other than `0x01`, `S25FL256Init` returns
the unsupported-device error after one status read and the identification
read, and the descriptor's page size is overwritten from the
sector-architecture byte as for a supported device: the 512-byte size when
the byte is the 256KB code, the 256-byte size when it is the 64KB code. -/
theorem C10_init_unsupported_manufacturer (c : Consts) (bus : Bus) (fuel : Nat)
    (dev : S25FL256_t) (tr : List BusOp)
    (hok : (bus.SPI3ReadRegister (tr ++ [BusOp.setup]) c.kS25FL256_RegisterRDSR1 1).1 =
      c.kSuccess)
    (hidle : byteAt (bus.SPI3ReadRegister (tr ++ [BusOp.setup]) c.kS25FL256_RegisterRDSR1 1).2 0
      &&& c.S25FL256_RegisterRDSR1_WIP = 0)
    (hid : (bus.SPI3ReadRegister
      (tr ++ [BusOp.setup] ++ [BusOp.read c.kS25FL256_RegisterRDSR1 1])
      c.kS25FL256_RegisterRDID 6).1 = c.kSuccess)
    (hman : byteAt (bus.SPI3ReadRegister
      (tr ++ [BusOp.setup] ++ [BusOp.read c.kS25FL256_RegisterRDSR1 1])
      c.kS25FL256_RegisterRDID 6).2 c.S25FL256_RegisterRDID_ManufacturerID ≠ 0x01)
    (h64 : c.kS25FL256_RegisterRDID_SectorArchitecture64KB ≠ 0)
    (hdist : c.kS25FL256_RegisterRDID_SectorArchitecture64KB ≠
      c.kS25FL256_RegisterRDID_SectorArchitecture256KB)
    (hfuel : 1 ≤ fuel) :
    (S25FL256Init c bus fuel dev tr).map (fun r => (r.1, r.2.2)) =
        some (c.kError_UnsupportedDevice,
          tr ++ [BusOp.setup] ++ [BusOp.read c.kS25FL256_RegisterRDSR1 1] ++
            [BusOp.read c.kS25FL256_RegisterRDID 6]) ∧
      (byteAt (bus.SPI3ReadRegister
          (tr ++ [BusOp.setup] ++ [BusOp.read c.kS25FL256_RegisterRDSR1 1])
          c.kS25FL256_RegisterRDID 6).2 c.S25FL256_RegisterRDID_SectorArchitecture =
          c.kS25FL256_RegisterRDID_SectorArchitecture256KB →
        (S25FL256Init c bus fuel dev tr).map (fun r => r.2.1.pageSize) =
          some c.kS25FL256_PageSize512B) ∧
      (byteAt (bus.SPI3ReadRegister
          (tr ++ [BusOp.setup] ++ [BusOp.read c.kS25FL256_RegisterRDSR1 1])
          c.kS25FL256_RegisterRDID 6).2 c.S25FL256_RegisterRDID_SectorArchitecture =
          c.kS25FL256_RegisterRDID_SectorArchitecture64KB →
        (S25FL256Init c bus fuel dev tr).map (fun r => r.2.1.pageSize) =
          some c.kS25FL256_PageSize256B) := by
  obtain ⟨f, rfl⟩ : ∃ f, fuel = f + 1 := ⟨fuel - 1, by omega⟩
  have hbw := S25FL256BusyWait_idle c bus f (tr ++ [BusOp.setup]) hok hidle
  refine ⟨?_, ?_, ?_⟩
  · by_cases hsa : byteAt (bus.SPI3ReadRegister
        (tr ++ [BusOp.setup] ++ [BusOp.read c.kS25FL256_RegisterRDSR1 1])
        c.kS25FL256_RegisterRDID 6).2 c.S25FL256_RegisterRDID_SectorArchitecture =
        c.kS25FL256_RegisterRDID_SectorArchitecture256KB
    · simp only [S25FL256Init, hbw, S25FL256ReadInfo, hid, hman, hsa, ne_eq,
        not_false_eq_true, if_true, Option.map_some']
    · simp only [S25FL256Init, hbw, S25FL256ReadInfo, hid, hman, hsa, h64, ne_eq,
        not_false_eq_true, if_true, if_false, Option.map_some']
  · intro hsa
    simp only [S25FL256Init, hbw, S25FL256ReadInfo, hid, hman, hsa, ne_eq,
      not_false_eq_true, if_true, Option.map_some']
  · intro hsa
    have hsa2 : ¬ byteAt (bus.SPI3ReadRegister
        (tr ++ [BusOp.setup] ++ [BusOp.read c.kS25FL256_RegisterRDSR1 1])
        c.kS25FL256_RegisterRDID 6).2 c.S25FL256_RegisterRDID_SectorArchitecture =
        c.kS25FL256_RegisterRDID_SectorArchitecture256KB := by
      rw [hsa]
      exact hdist
    simp only [S25FL256Init, hbw, S25FL256ReadInfo, hid, hman, hsa2, h64, ne_eq,
      not_false_eq_true, if_true, if_false, Option.map_some']

/-- C10 instance: identification bytes `EF 40 19 4D 01 80` (64KB code) on an
idle device with a fresh descriptor: unsupported-device error, page size 256. -/
theorem C10_init_unsupported_manufacturer_witness :
    (S25FL256Init sampleConsts (constBus 0x00 [0xEF, 0x40, 0x19, 0x4D, 0x01, 0x80]) 1
        freshDescriptor []).map (fun r => (r.1, r.2.2)) =
        some (sampleConsts.kError_UnsupportedDevice,
          [] ++ [BusOp.setup] ++ [BusOp.read sampleConsts.kS25FL256_RegisterRDSR1 1] ++
            [BusOp.read sampleConsts.kS25FL256_RegisterRDID 6]) ∧
      (S25FL256Init sampleConsts (constBus 0x00 [0xEF, 0x40, 0x19, 0x4D, 0x01, 0x80]) 1
        freshDescriptor []).map (fun r => r.2.1.pageSize) =
        some sampleConsts.kS25FL256_PageSize256B := by
  have h := C10_init_unsupported_manufacturer sampleConsts
    (constBus 0x00 [0xEF, 0x40, 0x19, 0x4D, 0x01, 0x80]) 1 freshDescriptor []
    (by decide) (by decide) (by decide) (by decide) (by decide) (by decide) (by decide)
  exact ⟨h.1, h.2.2 (by decide)⟩

/-- C10 (as stated, refuted): on a fresh descriptor (page size 0) and
identification bytes `EF 40 19 4D 01 80`, `S25FL256Init` returns the
unsupported-device error and leaves the page size at 256, not at its value
before the call. -/
theorem C10_counterexample_page_size_overwritten :
    (S25FL256Init sampleConsts (constBus 0x00 [0xEF, 0x40, 0x19, 0x4D, 0x01, 0x80]) 10
        freshDescriptor []).map (fun r => (r.1, r.2.1.pageSize)) =
        some (sampleConsts.kError_UnsupportedDevice, 256) ∧
      freshDescriptor.pageSize = 0 := by
  decide

/-! ## Identification (`S25FL256ReadInfo`, `S25FL256GetPageSize`) -/

/-- C11 (evaluation at a failing input): the identification bytes
`01 02 19 4D 05 80` carry the manufacturer byte `0x01` and a
sector-architecture byte `0x05` that is neither the 256KB code nor the 64KB
code, and `S25FL256ReadInfo` and `S25FL256Init` return success with a
256-byte page size. -/
theorem C11_unknown_sector_architecture_accepted :
    (0x05 : Nat) ≠ sampleConsts.kS25FL256_RegisterRDID_SectorArchitecture256KB ∧
      (0x05 : Nat) ≠ sampleConsts.kS25FL256_RegisterRDID_SectorArchitecture64KB ∧
      (S25FL256ReadInfo sampleConsts (constBus 0x00 [0x01, 0x02, 0x19, 0x4D, 0x05, 0x80])
        freshDescriptor []).1 = sampleConsts.kSuccess ∧
      (S25FL256ReadInfo sampleConsts (constBus 0x00 [0x01, 0x02, 0x19, 0x4D, 0x05, 0x80])
        freshDescriptor []).2.1.pageSize = 256 ∧
      (S25FL256Init sampleConsts (constBus 0x00 [0x01, 0x02, 0x19, 0x4D, 0x05, 0x80]) 10
        freshDescriptor []).map (fun r => r.1) = some sampleConsts.kSuccess := by
  decide

theorem S25FL256ReadInfo_pageSize (c : Consts) (bus : Bus) (dev : S25FL256_t)
    (tr : List BusOp)
    (hok : (bus.SPI3ReadRegister tr c.kS25FL256_RegisterRDID 6).1 = c.kSuccess)
    (h64 : c.kS25FL256_RegisterRDID_SectorArchitecture64KB ≠ 0) :
    (S25FL256ReadInfo c bus dev tr).2.1.pageSize =
      if byteAt (bus.SPI3ReadRegister tr c.kS25FL256_RegisterRDID 6).2
          c.S25FL256_RegisterRDID_SectorArchitecture =
          c.kS25FL256_RegisterRDID_SectorArchitecture256KB
      then c.kS25FL256_PageSize512B else c.kS25FL256_PageSize256B := by
  by_cases hsa : byteAt (bus.SPI3ReadRegister tr c.kS25FL256_RegisterRDID 6).2
      c.S25FL256_RegisterRDID_SectorArchitecture =
      c.kS25FL256_RegisterRDID_SectorArchitecture256KB
  · simp only [S25FL256ReadInfo, hok, hsa, if_true]
  · simp only [S25FL256ReadInfo, hok, hsa, h64, ne_eq, not_false_eq_true, if_true, if_false]

theorem S25FL256ReadInfo_success_read (c : Consts) (bus : Bus) (dev : S25FL256_t)
    (tr : List BusOp) (hs : (S25FL256ReadInfo c bus dev tr).1 = c.kSuccess) :
    (bus.SPI3ReadRegister tr c.kS25FL256_RegisterRDID 6).1 = c.kSuccess := by
  by_contra hne
  apply hne
  simp only [S25FL256ReadInfo, hne, if_false] at hs

/-- C12: under the header values 512 and 256 for the two page sizes and a
non-zero 64KB code distinct from the 256KB code, an identification read that
succeeds on the bus leaves the page size at 512 for the 256KB code and at
256 for the 64KB code, `S25FL256GetPageSize` returns exactly the stored
value, and after every `S25FL256Init` that returns success the accessor
returns 256 or 512. -/
theorem C12_page_size_after_identification (c : Consts) (bus : Bus) (fuel : Nat)
    (dev : S25FL256_t) (tr : List BusOp)
    (h512 : c.kS25FL256_PageSize512B = 512) (h256 : c.kS25FL256_PageSize256B = 256)
    (h64 : c.kS25FL256_RegisterRDID_SectorArchitecture64KB ≠ 0)
    (hdist : c.kS25FL256_RegisterRDID_SectorArchitecture64KB ≠
      c.kS25FL256_RegisterRDID_SectorArchitecture256KB) :
    ((bus.SPI3ReadRegister tr c.kS25FL256_RegisterRDID 6).1 = c.kSuccess →
      (byteAt (bus.SPI3ReadRegister tr c.kS25FL256_RegisterRDID 6).2
          c.S25FL256_RegisterRDID_SectorArchitecture =
          c.kS25FL256_RegisterRDID_SectorArchitecture256KB →
        (S25FL256ReadInfo c bus dev tr).2.1.pageSize = 512 ∧
        S25FL256GetPageSize (S25FL256ReadInfo c bus dev tr).2.1 = 512) ∧
      (byteAt (bus.SPI3ReadRegister tr c.kS25FL256_RegisterRDID 6).2
          c.S25FL256_RegisterRDID_SectorArchitecture =
          c.kS25FL256_RegisterRDID_SectorArchitecture64KB →
        (S25FL256ReadInfo c bus dev tr).2.1.pageSize = 256 ∧
        S25FL256GetPageSize (S25FL256ReadInfo c bus dev tr).2.1 = 256)) ∧
    (∀ dev1 tr1, S25FL256Init c bus fuel dev tr = some (c.kSuccess, dev1, tr1) →
      S25FL256GetPageSize dev1 = dev1.pageSize ∧
      (S25FL256GetPageSize dev1 = 256 ∨ S25FL256GetPageSize dev1 = 512)) := by
  constructor
  · intro hok
    have hps := S25FL256ReadInfo_pageSize c bus dev tr hok h64
    constructor
    · intro hsa
      rw [if_pos hsa, h512] at hps
      exact ⟨hps, by simp [S25FL256GetPageSize, hps]⟩
    · intro hsa
      have hsa2 : ¬ byteAt (bus.SPI3ReadRegister tr c.kS25FL256_RegisterRDID 6).2
          c.S25FL256_RegisterRDID_SectorArchitecture =
          c.kS25FL256_RegisterRDID_SectorArchitecture256KB := by
        rw [hsa]
        exact hdist
      rw [if_neg hsa2, h256] at hps
      exact ⟨hps, by simp [S25FL256GetPageSize, hps]⟩
  · intro dev1 tr1 hinit
    unfold S25FL256Init at hinit
    cases hbw : S25FL256BusyWait c bus fuel (tr ++ [BusOp.setup]) with
    | none => rw [hbw] at hinit; exact Option.noConfusion hinit
    | some bw =>
      rw [hbw] at hinit
      by_cases hs : bw.1 = c.kSuccess
      · simp only [hs, if_true, Option.some.injEq] at hinit
        have hst : (S25FL256ReadInfo c bus dev bw.2).1 = c.kSuccess := by rw [hinit]
        have hdev : (S25FL256ReadInfo c bus dev bw.2).2.1 = dev1 := by rw [hinit]
        have hok := S25FL256ReadInfo_success_read c bus dev bw.2 hst
        have hps := S25FL256ReadInfo_pageSize c bus dev bw.2 hok h64
        rw [hdev, h512, h256] at hps
        have hcases : dev1.pageSize = 512 ∨ dev1.pageSize = 256 := by
          split_ifs at hps
          · exact Or.inl hps
          · exact Or.inr hps
        rcases hcases with h | h
        · exact ⟨by simp [S25FL256GetPageSize, h], Or.inr (by simp [S25FL256GetPageSize, h])⟩
        · exact ⟨by simp [S25FL256GetPageSize, h], Or.inl (by simp [S25FL256GetPageSize, h])⟩
      · simp only [hs, if_false, Option.some.injEq, Prod.mk.injEq] at hinit
        exact hinit.1.elim

/-- C12 instance: identification bytes `01 02 19 4D 01 80` (64KB code) on an
idle device: the accessor returns 256 after the identification read, and
`S25FL256Init` succeeds with a page size of 256 or 512. -/
theorem C12_page_size_after_identification_witness :
    S25FL256GetPageSize (S25FL256ReadInfo sampleConsts
        (constBus 0x00 [0x01, 0x02, 0x19, 0x4D, 0x01, 0x80]) freshDescriptor []).2.1 = 256 ∧
      ∃ dev1 tr1, S25FL256Init sampleConsts (constBus 0x00 [0x01, 0x02, 0x19, 0x4D, 0x01, 0x80])
          1 freshDescriptor [] = some (sampleConsts.kSuccess, dev1, tr1) ∧
        S25FL256GetPageSize dev1 = dev1.pageSize ∧
        (S25FL256GetPageSize dev1 = 256 ∨ S25FL256GetPageSize dev1 = 512) := by
  have h := C12_page_size_after_identification sampleConsts
    (constBus 0x00 [0x01, 0x02, 0x19, 0x4D, 0x01, 0x80]) 1 freshDescriptor []
    (by decide) (by decide) (by decide) (by decide)
  have hinit : S25FL256Init sampleConsts (constBus 0x00 [0x01, 0x02, 0x19, 0x4D, 0x01, 0x80])
      1 freshDescriptor [] = some (sampleConsts.kSuccess,
        { manufacturerID := 0x01, memoryType := 0x02, capacity := 0x19, IDCFI := 0x4D,
          sectorArchitecture := 0x01, familyID := 0x80, pageSize := 256 },
        [BusOp.setup, BusOp.read 0x05 1, BusOp.read 0x9F 6]) := by decide
  exact ⟨((h.1 (by decide)).2 (by decide)).2, _, _, hinit, h.2 _ _ hinit⟩

/-! ## Busy-wait, range read and parameter validation -/

theorem busyWaitLoop_busy (c : Consts) (bus : Bus) (tr : List BusOp) :
    ∀ m j fuel, (∀ i, j ≤ i → i ≤ j + m → WipAnswer c (statusResp c bus tr i)) →
      j + m ≤ kS25FL256Timeout + 1 →
      busyWaitLoop c bus (fuel + m) (statusResp c bus tr j).1
          (byteAt (statusResp c bus tr j).2 0) j (tr ++ statusReads c (j + 1)) =
        busyWaitLoop c bus fuel (statusResp c bus tr (j + m)).1
          (byteAt (statusResp c bus tr (j + m)).2 0) (j + m)
          (tr ++ statusReads c (j + m + 1)) := by
  intro m
  induction m with
  | zero => intro j fuel _ _; rfl
  | succ m ih =>
    intro j fuel hbusy hle
    obtain ⟨_, hwip⟩ := hbusy j (Nat.le_refl j) (by omega)
    obtain ⟨hs1, _⟩ := hbusy (j + 1) (by omega) (by omega)
    have hto : ¬ j > kS25FL256Timeout := by omega
    have hmod : (j + 1) % 2 ^ 32 = j + 1 := by
      apply Nat.mod_eq_of_lt
      simp only [kS25FL256Timeout] at hle
      omega
    have hstep := ih (j + 1) fuel (fun i h1 h2 => hbusy i (by omega) (by omega)) (by omega)
    have hs1' : (bus.SPI3ReadRegister (tr ++ statusReads c (j + 1))
        c.kS25FL256_RegisterRDSR1 1).1 = c.kSuccess := hs1
    rw [show fuel + (m + 1) = (fuel + m) + 1 by omega]
    rw [busyWaitLoop, if_pos hwip]
    simp only []
    rw [if_neg hto, if_neg (not_not.mpr hs1'), hmod, List.append_assoc, statusReads_succ]
    rw [show j + (m + 1) = j + 1 + m by omega]
    exact hstep

/-- Shared by the statements about a status register that never clears its
work-in-progress flag: the busy-wait times out after `kS25FL256Timeout + 3`
reads. -/
theorem busyWait_never_clears (c : Consts) (bus : Bus) (tr : List BusOp) (fuel : Nat)
    (hbusy : ∀ i, i < kS25FL256Timeout + 2 → WipAnswer c (statusResp c bus tr i))
    (hfuel : kS25FL256Timeout + 2 ≤ fuel) :
    S25FL256BusyWait c bus fuel tr =
      some (c.kError_FlashBusy, tr ++ statusReads c (kS25FL256Timeout + 3)) := by
  obtain ⟨f, rfl⟩ : ∃ f, fuel = (f + 1) + (kS25FL256Timeout + 1) :=
    ⟨fuel - (kS25FL256Timeout + 2), by omega⟩
  obtain ⟨hs0, _⟩ := hbusy 0 (by omega)
  obtain ⟨_, hwip⟩ := hbusy (kS25FL256Timeout + 1) (by omega)
  have hloop := busyWaitLoop_busy c bus tr (kS25FL256Timeout + 1) 0 (f + 1)
    (fun i _ h2 => hbusy i (by omega)) (by omega)
  simp only [Nat.zero_add] at hloop
  rw [statusResp_zero] at hs0 hloop
  have hentry : S25FL256BusyWait c bus (f + 1 + (kS25FL256Timeout + 1)) tr =
      busyWaitLoop c bus (f + 1 + (kS25FL256Timeout + 1))
        (bus.SPI3ReadRegister tr c.kS25FL256_RegisterRDSR1 1).1
        (byteAt (bus.SPI3ReadRegister tr c.kS25FL256_RegisterRDSR1 1).2 0) 0
        (tr ++ statusReads c 1) := by
    simp [S25FL256BusyWait, hs0, statusReads_one]
  rw [hentry, hloop, busyWaitLoop, if_pos hwip]
  simp only []
  rw [if_pos (show kS25FL256Timeout + 1 > kS25FL256Timeout by omega), List.append_assoc,
    statusReads_succ]

theorem constBus_wipAnswer (tr : List BusOp) (i : Nat) :
    WipAnswer sampleConsts (statusResp sampleConsts (constBus 0x01 []) tr i) := by
  rw [constBus_statusResp]
  exact ⟨by decide, by decide⟩

/-- C13 (as amended): when every status read succeeds and reports
work-in-progress set (and no error flag), `S25FL256BusyWait` returns the
busy-timeout error after 65539 status reads, one more than the 65538 reads
after which `S25FL256CheckStatus` times out against the same status register;
both use the ceiling `kS25FL256Timeout`. -/
theorem C13_busyWait_timeout_one_read_later (c : Consts) (bus : Bus) (inStatusFlag : Nat)
    (tr : List BusOp) (fuel : Nat)
    (hbusy : ∀ i, BusyAnswer c (statusResp c bus tr i))
    (hne : c.kError_FlashBusy ≠ c.kSuccess) (hfuel : 65538 ≤ fuel) :
    S25FL256BusyWait c bus fuel tr = some (c.kError_FlashBusy, tr ++ statusReads c 65539) ∧
      S25FL256CheckStatus c bus fuel inStatusFlag tr =
        some (c.kError_FlashBusy, tr ++ statusReads c 65538) ∧
      (statusReads c 65539).length = (statusReads c 65538).length + 1 := by
  refine ⟨?_, ?_, ?_⟩
  · exact busyWait_never_clears c bus tr fuel (fun i _ => ⟨(hbusy i).1, (hbusy i).2.1⟩) hfuel
  · exact checkStatus_never_clears c bus inStatusFlag tr fuel (fun i _ => hbusy i) hne hfuel
  · rw [statusReads_length, statusReads_length]

/-- C13 instance: the status register always reads `0x01`. -/
theorem C13_busyWait_timeout_one_read_later_witness :
    S25FL256BusyWait sampleConsts (constBus 0x01 []) 65538 [] =
        some (sampleConsts.kError_FlashBusy, [] ++ statusReads sampleConsts 65539) ∧
      S25FL256CheckStatus sampleConsts (constBus 0x01 []) 65538 2 [] =
        some (sampleConsts.kError_FlashBusy, [] ++ statusReads sampleConsts 65538) ∧
      (statusReads sampleConsts 65539).length = (statusReads sampleConsts 65538).length + 1 :=
  C13_busyWait_timeout_one_read_later sampleConsts (constBus 0x01 []) 2 [] 65538
    (constBus_busyAnswer []) (by decide) (Nat.le_refl 65538)

/-- C13 (as stated, refuted): with a status register that always reads `0x01`
both functions time out, `S25FL256BusyWait` after 65539 status reads and
`S25FL256CheckStatus` after 65538, so the numbers of reads differ. -/
theorem C13_counterexample_read_counts_differ :
    (S25FL256BusyWait sampleConsts (constBus 0x01 []) 65538 []).map
        (fun r => (r.1, r.2.length)) = some (sampleConsts.kError_FlashBusy, 65539) ∧
      (S25FL256CheckStatus sampleConsts (constBus 0x01 []) 65538 2 []).map
        (fun r => (r.1, r.2.length)) = some (sampleConsts.kError_FlashBusy, 65538) ∧
      (65539 : Nat) ≠ 65538 := by
  have hbw := busyWait_never_clears sampleConsts (constBus 0x01 []) [] 65538
    (fun i _ => constBus_wipAnswer [] i) (by decide)
  have hcs := checkStatus_never_clears sampleConsts (constBus 0x01 []) 2 [] 65538
    (fun i _ => constBus_busyAnswer [] i) (by decide) (by decide)
  refine ⟨?_, ?_, by decide⟩
  · rw [hbw, Option.map_some', List.nil_append, statusReads_length]
    rfl
  · rw [hcs, Option.map_some', List.nil_append, statusReads_length]
    rfl

/-- C14: for every address (a `uint32_t`), length and transport,
`S25FL256PageRead` (after the status reads of its busy-wait) writes the four
big-endian address bytes (each below 256, `b0 * 2^24 + b1 * 2^16 + b2 * 2^8 +
b3 = A`) to 4READ as an incomplete packet and then issues the
read of the requested length from 4READ; the status and data returned are
those of that read, whatever the busy-wait and the address write answered. -/
theorem C14_pageRead_address_then_read (c : Consts) (bus : Bus) (fuel A inSize : Nat)
    (tr : List BusOp) (h32 : A < 2 ^ 32) (hfuel : kS25FL256Timeout + 2 ≤ fuel) :
    ∃ k, 1 ≤ k ∧
      S25FL256PageRead c bus fuel A inSize tr =
        some ((bus.SPI3ReadRegister
                (tr ++ statusReads c k ++
                  [BusOp.write c.kS25FL256_Register4READ (sectorAddressBytes A) false])
                c.kS25FL256_Register4READ inSize).1,
              (bus.SPI3ReadRegister
                (tr ++ statusReads c k ++
                  [BusOp.write c.kS25FL256_Register4READ (sectorAddressBytes A) false])
                c.kS25FL256_Register4READ inSize).2,
              tr ++ statusReads c k ++
                [BusOp.write c.kS25FL256_Register4READ (sectorAddressBytes A) false] ++
                [BusOp.read c.kS25FL256_Register4READ inSize]) ∧
      bigEndianValue (sectorAddressBytes A) = A ∧
      (∃ b0 b1 b2 b3, sectorAddressBytes A = [b0, b1, b2, b3] ∧
        b0 < 256 ∧ b1 < 256 ∧ b2 < 256 ∧ b3 < 256 ∧
        b0 * 2 ^ 24 + b1 * 2 ^ 16 + b2 * 2 ^ 8 + b3 = A) := by
  obtain ⟨st, k, hk, h1, _⟩ := S25FL256BusyWait_terminates c bus fuel tr hfuel
  refine ⟨k, h1, ?_, bigEndianValue_sectorAddressBytes A h32,
    sectorAddressBytes_bytes A h32⟩
  simp only [S25FL256PageRead, hk]

/-- C14 instance: three bytes read at `0x12345678` on a transport whose
writes fail with code `-9`. -/
theorem C14_pageRead_address_then_read_witness :
    ∃ k, 1 ≤ k ∧
      S25FL256PageRead sampleConsts (writeFailingBus (-9)) 65538 0x12345678 3 [] =
        some (((writeFailingBus (-9)).SPI3ReadRegister
                ([] ++ statusReads sampleConsts k ++
                  [BusOp.write sampleConsts.kS25FL256_Register4READ
                    (sectorAddressBytes 0x12345678) false])
                sampleConsts.kS25FL256_Register4READ 3).1,
              ((writeFailingBus (-9)).SPI3ReadRegister
                ([] ++ statusReads sampleConsts k ++
                  [BusOp.write sampleConsts.kS25FL256_Register4READ
                    (sectorAddressBytes 0x12345678) false])
                sampleConsts.kS25FL256_Register4READ 3).2,
              [] ++ statusReads sampleConsts k ++
                [BusOp.write sampleConsts.kS25FL256_Register4READ
                  (sectorAddressBytes 0x12345678) false] ++
                [BusOp.read sampleConsts.kS25FL256_Register4READ 3]) ∧
      bigEndianValue (sectorAddressBytes 0x12345678) = 0x12345678 ∧
      (∃ b0 b1 b2 b3, sectorAddressBytes 0x12345678 = [b0, b1, b2, b3] ∧
        b0 < 256 ∧ b1 < 256 ∧ b2 < 256 ∧ b3 < 256 ∧
        b0 * 2 ^ 24 + b1 * 2 ^ 16 + b2 * 2 ^ 8 + b3 = 0x12345678) :=
  C14_pageRead_address_then_read sampleConsts (writeFailingBus (-9))
    65538 0x12345678 3 [] (by decide) (by decide)

/-- C15: for an address above `kS25FL256_4KSectorLast`, `S25FL256Erase4K` ends
in the parameter-validation error of `mAssertParam` and adds no operation
to the bus trace. -/
theorem C15_erase4K_rejects_address_above_last (c : Consts) (bus : Bus) (fuel A : Nat)
    (tr : List BusOp) (hA : c.kS25FL256_4KSectorLast < A)
    (herr : c.kError_AssertParam ≠ c.kSuccess) :
    ∃ status, S25FL256Erase4K c bus fuel A tr = some (status, tr) ∧
      status = c.kError_AssertParam ∧ status ≠ c.kSuccess := by
  refine ⟨c.kError_AssertParam, ?_, rfl, herr⟩
  have hcond : decide (A ≥ 0 ∧ A ≤ c.kS25FL256_4KSectorLast) = false := by
    simp only [decide_eq_false_iff_not, not_and, not_le]
    intro _
    exact hA
  simp only [S25FL256Erase4K, mAssertParam, hcond, Bool.false_eq_true, if_false]

/-- C15 instance: address `0x1F001`, one above the last 4K sector address. -/
theorem C15_erase4K_rejects_address_above_last_witness :
    ∃ status, S25FL256Erase4K sampleConsts (constBus 0x02 []) 65538 0x1F001 [] =
        some (status, []) ∧
      status = sampleConsts.kError_AssertParam ∧ status ≠ sampleConsts.kSuccess :=
  C15_erase4K_rejects_address_above_last sampleConsts (constBus 0x02 []) 65538 0x1F001 []
    (by decide) (by decide)

/-! ## Read failures, termination and address serialisation -/

theorem checkStatus_busy_run_pos (c : Consts) (bus : Bus) (flag : Nat) (tr : List BusOp)
    (N fuel : Nat) (hpos : 0 < N) (hN : N ≤ kS25FL256Timeout + 1)
    (hbusy : ∀ i, i < N → BusyAnswer c (statusResp c bus tr i)) :
    S25FL256CheckStatus c bus (fuel + N) flag tr =
      checkStatusLoop c bus flag fuel (statusResp c bus tr N).1
        (byteAt (statusResp c bus tr N).2 0) N (tr ++ statusReads c (N + 1)) := by
  have h0 : (statusResp c bus tr 0).1 = c.kSuccess := (hbusy 0 hpos).1
  have hloop := checkStatusLoop_busy c bus flag tr N 0 fuel
    (fun i _ h2 => hbusy i (by omega)) (by omega)
  simp only [Nat.zero_add] at hloop
  rw [← hloop]
  rw [statusResp_zero] at h0 ⊢
  simp [S25FL256CheckStatus, h0, statusReads_one]

theorem passStatus_ne_success (c : Consts) (flag : Nat) (status : Int) (b timeout : Nat)
    (hs : status ≠ c.kSuccess) (hB : c.kError_FlashBusy ≠ c.kSuccess)
    (hW : c.kError_FlashWNE ≠ c.kSuccess) (hE : c.kError_FlashErase ≠ c.kSuccess)
    (hP : c.kError_FlashProg ≠ c.kSuccess) :
    passStatus c flag status b timeout ≠ c.kSuccess := by
  unfold passStatus
  split_ifs <;> assumption

theorem passStatus_busy (c : Consts) (flag : Nat) (status : Int) (b timeout : Nat)
    (hto : timeout ≤ kS25FL256Timeout)
    (hwip : b &&& c.S25FL256_RegisterRDSR1_WIP ≠ 0)
    (he : b &&& c.S25FL256_RegisterRDSR1_E_ERR = 0)
    (hp : b &&& c.S25FL256_RegisterRDSR1_P_ERR = 0) :
    passStatus c flag status b timeout = status := by
  have hto2 : ¬ timeout > kS25FL256Timeout := by omega
  simp only [passStatus, hto2, he, hp, hwip, ne_eq, not_true_eq_false, if_false, false_and]

/-- Shared by the statements about a failing status read: after `N` busy
answers the read with index `N` fails; the check then stops without a further
read, and its status is the one the next pass of the loop leaves. -/
theorem checkStatus_failed_read (c : Consts) (bus : Bus) (flag : Nat) (tr : List BusOp)
    (N fuel : Nat) (hN : N ≤ kS25FL256Timeout + 1)
    (hbusy : ∀ i, i < N → BusyAnswer c (statusResp c bus tr i))
    (hfail : (statusResp c bus tr N).1 ≠ c.kSuccess)
    (hB : c.kError_FlashBusy ≠ c.kSuccess) (hW : c.kError_FlashWNE ≠ c.kSuccess)
    (hE : c.kError_FlashErase ≠ c.kSuccess) (hP : c.kError_FlashProg ≠ c.kSuccess)
    (hfuel : N + 1 ≤ fuel) :
    ∃ st, S25FL256CheckStatus c bus fuel flag tr = some (st, tr ++ statusReads c (N + 1)) ∧
      st ≠ c.kSuccess ∧
      (N = 0 ∨ byteAt (statusResp c bus tr N).2 0 = 0 ∨
        (byteAt (statusResp c bus tr N).2 0 &&& c.S25FL256_RegisterRDSR1_WIP = 0 ∧
          byteAt (statusResp c bus tr N).2 0 &&& c.S25FL256_RegisterRDSR1_WEL ≠ 0) →
        st = (statusResp c bus tr N).1) ∧
      (0 < N → byteAt (statusResp c bus tr N).2 0 ≠ 0 →
        ¬ (byteAt (statusResp c bus tr N).2 0 &&& c.S25FL256_RegisterRDSR1_WIP = 0 ∧
          byteAt (statusResp c bus tr N).2 0 &&& c.S25FL256_RegisterRDSR1_WEL ≠ 0) →
        st = passStatus c flag (statusResp c bus tr N).1
          (byteAt (statusResp c bus tr N).2 0) N) := by
  rcases Nat.eq_zero_or_pos N with hz | hpos
  · subst hz
    rw [statusResp_zero] at hfail
    refine ⟨(statusResp c bus tr 0).1, ?_, ?_, fun _ => rfl, fun h => absurd h (Nat.lt_irrefl 0)⟩
    · rw [statusResp_zero]
      simp only [S25FL256CheckStatus, hfail, ne_eq, not_false_eq_true, if_true]
      rfl
    · rw [statusResp_zero]
      exact hfail
  · obtain ⟨f, rfl⟩ : ∃ f, fuel = (f + 1) + N := ⟨fuel - (N + 1), by omega⟩
    rw [checkStatus_busy_run_pos c bus flag tr N (f + 1) hpos hN hbusy, checkStatusLoop_succ]
    have hps := passStatus_ne_success c flag (statusResp c bus tr N).1
      (byteAt (statusResp c bus tr N).2 0) N hfail hB hW hE hP
    by_cases hb : byteAt (statusResp c bus tr N).2 0 = 0
    · rw [if_pos hb]
      exact ⟨_, rfl, hfail, fun _ => rfl, fun _ h _ => absurd hb h⟩
    · rw [if_neg hb]
      by_cases hr : byteAt (statusResp c bus tr N).2 0 &&& c.S25FL256_RegisterRDSR1_WIP = 0 ∧
          byteAt (statusResp c bus tr N).2 0 &&& c.S25FL256_RegisterRDSR1_WEL ≠ 0
      · rw [if_pos hr]
        exact ⟨_, rfl, hfail, fun _ => rfl, fun _ _ h => absurd hr h⟩
      · rw [if_neg hr, if_pos hps]
        refine ⟨_, rfl, hps, ?_, fun _ _ _ => rfl⟩
        rintro (h | h | h)
        · omega
        · exact absurd h hb
        · exact absurd h hr

theorem failingBus_statusResp (n busy : Nat) (code : Int) (left i : Nat) :
    statusResp sampleConsts (failingBus n busy code left) [] i =
      if i < n then (0, [busy]) else (code, [left]) := by
  simp only [statusResp, failingBus, List.nil_append, statusReads_length]

/-- C16 (as amended): when, after `N` successful busy answers without error
flag, the next status read fails, `S25FL256CheckStatus` performs no further
status read and returns a non-success status; that status is exactly the
transport's error code when the failed read is the first read, or when it is
among the first 65537 reads and the byte it leaves in the buffer is zero, has
work-in-progress clear and write-enable-latched set, or is still busy without
error flag (as when the buffer is left unchanged). -/
theorem C16_checkStatus_failed_read_stops (c : Consts) (bus : Bus) (inStatusFlag : Nat)
    (tr : List BusOp) (N fuel : Nat) (hN : N ≤ kS25FL256Timeout + 1)
    (hbusy : ∀ i, i < N → BusyAnswer c (statusResp c bus tr i))
    (hfail : (statusResp c bus tr N).1 ≠ c.kSuccess)
    (hB : c.kError_FlashBusy ≠ c.kSuccess) (hW : c.kError_FlashWNE ≠ c.kSuccess)
    (hE : c.kError_FlashErase ≠ c.kSuccess) (hP : c.kError_FlashProg ≠ c.kSuccess)
    (hfuel : N + 1 ≤ fuel) :
    ∃ st, S25FL256CheckStatus c bus fuel inStatusFlag tr =
          some (st, tr ++ statusReads c (N + 1)) ∧
      st ≠ c.kSuccess ∧
      (N = 0 → st = (statusResp c bus tr N).1) ∧
      (N ≤ kS25FL256Timeout →
        (byteAt (statusResp c bus tr N).2 0 = 0 ∨
          (byteAt (statusResp c bus tr N).2 0 &&& c.S25FL256_RegisterRDSR1_WIP = 0 ∧
            byteAt (statusResp c bus tr N).2 0 &&& c.S25FL256_RegisterRDSR1_WEL ≠ 0) ∨
          (byteAt (statusResp c bus tr N).2 0 &&& c.S25FL256_RegisterRDSR1_WIP ≠ 0 ∧
            byteAt (statusResp c bus tr N).2 0 &&& c.S25FL256_RegisterRDSR1_E_ERR = 0 ∧
            byteAt (statusResp c bus tr N).2 0 &&& c.S25FL256_RegisterRDSR1_P_ERR = 0)) →
        st = (statusResp c bus tr N).1) := by
  obtain ⟨st, h1, h2, h3, h4⟩ := checkStatus_failed_read c bus inStatusFlag tr N fuel hN hbusy
    hfail hB hW hE hP hfuel
  refine ⟨st, h1, h2, fun hz => h3 (Or.inl hz), ?_⟩
  intro hNT hcond
  rcases hcond with h | h | ⟨hwip, he, hp⟩
  · exact h3 (Or.inr (Or.inl h))
  · exact h3 (Or.inr (Or.inr h))
  · rcases Nat.eq_zero_or_pos N with hz | hpos
    · exact h3 (Or.inl hz)
    · rw [h4 hpos (land_ne_zero_left hwip) (fun h => hwip h.1)]
      exact passStatus_busy c inStatusFlag _ _ N hNT hwip he hp

/-- C16 instance: the first read answers `0x01`, the second fails with code
`-7` and leaves `0x01` in the buffer; the check returns `-7` after two reads. -/
theorem C16_checkStatus_failed_read_stops_witness :
    ∃ st, S25FL256CheckStatus sampleConsts (failingBus 1 0x01 (-7) 0x01) 2 2 [] =
          some (st, [] ++ statusReads sampleConsts (1 + 1)) ∧
      st ≠ sampleConsts.kSuccess ∧ st = -7 := by
  obtain ⟨st, h1, h2, _, h4⟩ := C16_checkStatus_failed_read_stops sampleConsts
    (failingBus 1 0x01 (-7) 0x01) 2 [] 1 2 (by decide)
    (by
      intro i hi
      have hi0 : i = 0 := by omega
      subst hi0
      exact ⟨by decide, by decide, by decide, by decide⟩)
    (by decide) (by decide) (by decide) (by decide) (by decide) (by decide)
  exact ⟨st, h1, h2, h4 (by decide) (Or.inr (Or.inr ⟨by decide, by decide, by decide⟩))⟩

/-- C16 (as stated, refuted): (a) after 65537 busy answers `0x01` the read
with index 65537 fails with code `-7` and leaves `0x01` in the buffer; the
check returns the busy-timeout code, not `-7`.  (b) after one busy answer the
second read fails with code `-7` and leaves `0x21` in the buffer; the check
returns the erase-error code, not `-7`. -/
theorem C16_counterexample_transport_error_overwritten :
    (statusResp sampleConsts (failingBus 65537 0x01 (-7) 0x01) [] 65537).1 = -7 ∧
      S25FL256CheckStatus sampleConsts (failingBus 65537 0x01 (-7) 0x01) 65538 2 [] =
        some (sampleConsts.kError_FlashBusy, statusReads sampleConsts 65538) ∧
      sampleConsts.kError_FlashBusy ≠ -7 ∧
      (statusResp sampleConsts (failingBus 1 0x01 (-7) 0x21) [] 1).1 = -7 ∧
      S25FL256CheckStatus sampleConsts (failingBus 1 0x01 (-7) 0x21) 2 2 [] =
        some (sampleConsts.kError_FlashErase, [BusOp.read 0x05 1, BusOp.read 0x05 1]) ∧
      sampleConsts.kError_FlashErase ≠ -7 := by
  have hresp : statusResp sampleConsts (failingBus 65537 0x01 (-7) 0x01) [] 65537 =
      (-7, [0x01]) := by
    rw [failingBus_statusResp, if_neg (Nat.lt_irrefl 65537)]
  have hbusy : ∀ i, i < 65537 →
      BusyAnswer sampleConsts (statusResp sampleConsts (failingBus 65537 0x01 (-7) 0x01) [] i) := by
    intro i hi
    rw [failingBus_statusResp, if_pos hi]
    exact ⟨by decide, by decide, by decide, by decide⟩
  obtain ⟨st, h1, _, _, h4⟩ := checkStatus_failed_read sampleConsts
    (failingBus 65537 0x01 (-7) 0x01) 2 [] 65537 65538 (by decide) hbusy
    (by rw [hresp]; decide) (by decide) (by decide) (by decide) (by decide) (by decide)
  have hst : st = sampleConsts.kError_FlashBusy := by
    rw [h4 (by decide) (by rw [hresp]; decide) (by rw [hresp]; decide), hresp]
    decide
  refine ⟨by rw [hresp], ?_, by decide, by decide, by decide, by decide⟩
  rw [h1, hst, List.nil_append]

/-- C17: for every transport, `S25FL256BusyWait` and `S25FL256CheckStatus`
return (given 65538 units of fuel, the most the loops can use); the operations
they add to the bus trace are status reads only, at most 65539 for the
busy-wait and at most 65538 for the status check, whatever the transport
answers. -/
theorem C17_polling_terminates_bounded (c : Consts) (bus : Bus) (inStatusFlag : Nat)
    (tr : List BusOp) (fuel : Nat) (hne : c.kError_FlashBusy ≠ c.kSuccess)
    (hfuel : 65538 ≤ fuel) :
    (∃ st k, S25FL256BusyWait c bus fuel tr = some (st, tr ++ statusReads c k) ∧
        1 ≤ k ∧ k ≤ 65539) ∧
      (∃ st k, S25FL256CheckStatus c bus fuel inStatusFlag tr =
          some (st, tr ++ statusReads c k) ∧ 1 ≤ k ∧ k ≤ 65538) :=
  ⟨S25FL256BusyWait_terminates c bus fuel tr hfuel,
    S25FL256CheckStatus_terminates c bus inStatusFlag fuel tr hne hfuel⟩

/-- C17 instance: a transport whose status register always reads `0x01`. -/
theorem C17_polling_terminates_bounded_witness :
    (∃ st k, S25FL256BusyWait sampleConsts (constBus 0x01 []) 65538 [] =
          some (st, [] ++ statusReads sampleConsts k) ∧ 1 ≤ k ∧ k ≤ 65539) ∧
      (∃ st k, S25FL256CheckStatus sampleConsts (constBus 0x01 []) 65538 2 [] =
          some (st, [] ++ statusReads sampleConsts k) ∧ 1 ≤ k ∧ k ≤ 65538) :=
  C17_polling_terminates_bounded sampleConsts (constBus 0x01 []) 2 [] 65538
    (by decide) (Nat.le_refl 65538)

theorem sectorAddressBytes_injective (a b : Nat) (ha : a < 2 ^ 32) (hb : b < 2 ^ 32)
    (h : sectorAddressBytes b = sectorAddressBytes a) : b = a := by
  have h1 := bigEndianValue_sectorAddressBytes a ha
  have h2 := bigEndianValue_sectorAddressBytes b hb
  rw [h] at h2
  rw [← h2, h1]

/-- C18: for a 32-bit address `A` the four bytes the driver computes are below
256 and satisfy `b0 * 2^24 + b1 * 2^16 + b2 * 2^8 + b3 = A`; two 32-bit
addresses with the same bytes are equal; and the command writes of
`S25FL256Erase4K` (for `A` within range), `S25FL256Erase64K`,
`S25FL256PageWrite` (for a size within the page) and `S25FL256PageRead` all
carry these same four bytes. -/
theorem C18_address_bytes_big_endian (c : Consts) (bus : Bus) (fuel : Nat)
    (dev : S25FL256_t) (A : Nat) (inData : List Nat) (inSize : Nat) (tr : List BusOp)
    (h32 : A < 2 ^ 32) (hne : c.kError_FlashBusy ≠ c.kSuccess)
    (hfuel : kS25FL256Timeout + 2 ≤ fuel) :
    (∃ b0 b1 b2 b3, sectorAddressBytes A = [b0, b1, b2, b3] ∧
        b0 < 256 ∧ b1 < 256 ∧ b2 < 256 ∧ b3 < 256 ∧
        b0 * 2 ^ 24 + b1 * 2 ^ 16 + b2 * 2 ^ 8 + b3 = A) ∧
      (∀ B, B < 2 ^ 32 → sectorAddressBytes B = sectorAddressBytes A → B = A) ∧
      (A ≤ c.kS25FL256_4KSectorLast → ∃ r, S25FL256Erase4K c bus fuel A tr = some r ∧
        BusOp.write c.kS25FL256_Register4P4E (sectorAddressBytes A) true ∈ r.2) ∧
      (∃ r, S25FL256Erase64K c bus fuel A tr = some r ∧
        BusOp.write c.kS25FL256_Register4SE (sectorAddressBytes A) true ∈ r.2) ∧
      (inSize ≤ dev.pageSize → ∃ r, S25FL256PageWrite c bus fuel dev A inData inSize tr = some r ∧
        BusOp.write c.kS25FL256_Register4PP (sectorAddressBytes A) false ∈ r.2) ∧
      (∃ r, S25FL256PageRead c bus fuel A inSize tr = some r ∧
        BusOp.write c.kS25FL256_Register4READ (sectorAddressBytes A) false ∈ r.2.2) := by
  refine ⟨?_, ?_, ?_, ?_, ?_, ?_⟩
  · refine ⟨A / 2 ^ 24 % 256, A / 2 ^ 16 % 256, A / 2 ^ 8 % 256, A % 256,
      sectorAddressBytes_eq A, Nat.mod_lt _ (by decide), Nat.mod_lt _ (by decide),
      Nat.mod_lt _ (by decide), Nat.mod_lt _ (by decide), ?_⟩
    norm_num at h32 ⊢
    omega
  · intro B hB h
    exact sectorAddressBytes_injective A B h32 hB h
  · intro hA
    obtain ⟨st, k, hk, _, _⟩ := S25FL256CheckStatus_terminates c bus
      (c.S25FL256_RegisterRDSR1_WEL % 256) fuel
      (tr ++ [BusOp.write c.kS25FL256_RegisterWREN [] true]) hne hfuel
    have hcond : decide (A ≥ 0 ∧ A ≤ c.kS25FL256_4KSectorLast) = true := by
      simp [hA]
    refine ⟨_, by
      simp only [S25FL256Erase4K, mAssertParam, hcond, if_true, S25FL256WriteEnable, hk]
      rfl, ?_⟩
    exact List.mem_append_right _ (List.mem_singleton.mpr rfl)
  · obtain ⟨st, k, hk, _, _⟩ := S25FL256CheckStatus_terminates c bus
      (c.S25FL256_RegisterRDSR1_WEL % 256) fuel
      (tr ++ [BusOp.write c.kS25FL256_RegisterWREN [] true]) hne hfuel
    refine ⟨_, by
      simp only [S25FL256Erase64K, S25FL256WriteEnable, hk]
      rfl, ?_⟩
    exact List.mem_append_right _ (List.mem_singleton.mpr rfl)
  · intro hsize
    obtain ⟨st1, k1, hk1, _, _⟩ := S25FL256BusyWait_terminates c bus fuel tr hfuel
    obtain ⟨st2, k2, hk2, _, _⟩ := S25FL256CheckStatus_terminates c bus
      (c.S25FL256_RegisterRDSR1_WEL % 256) fuel
      (tr ++ statusReads c k1 ++ [BusOp.write c.kS25FL256_RegisterWREN [] true]) hne hfuel
    by_cases hA : bus.SPI3WriteRegister
        (tr ++ statusReads c k1 ++ [BusOp.write c.kS25FL256_RegisterWREN [] true] ++
          statusReads c k2)
        c.kS25FL256_Register4PP (sectorAddressBytes A) false ≠ c.kSuccess
    · refine ⟨_, by
        simp only [S25FL256PageWrite, hk1, hsize, if_true, S25FL256WriteEnable, hk2]
        rw [if_pos hA], ?_⟩
      exact List.mem_append_right _ (List.mem_singleton.mpr rfl)
    · refine ⟨_, by
        simp only [S25FL256PageWrite, hk1, hsize, if_true, S25FL256WriteEnable, hk2]
        rw [if_neg hA], ?_⟩
      exact List.mem_append_left _ (List.mem_append_right _ (List.mem_singleton.mpr rfl))
  · obtain ⟨st, k, hk, _, _⟩ := S25FL256BusyWait_terminates c bus fuel tr hfuel
    refine ⟨_, by
      simp only [S25FL256PageRead, hk]
      rfl, ?_⟩
    exact List.mem_append_left _ (List.mem_append_right _ (List.mem_singleton.mpr rfl))

/-- C18 instance: address `0x12345678` gives the bytes `12 34 56 78`. -/
theorem C18_address_bytes_big_endian_witness :
    sectorAddressBytes 0x12345678 = [0x12, 0x34, 0x56, 0x78] ∧
      (∀ B, B < 2 ^ 32 → sectorAddressBytes B = sectorAddressBytes 0x12345678 →
        B = 0x12345678) ∧
      (∃ r, S25FL256Erase64K sampleConsts (constBus 0x02 []) 65538 0x12345678 [] = some r ∧
        BusOp.write sampleConsts.kS25FL256_Register4SE (sectorAddressBytes 0x12345678) true
          ∈ r.2) ∧
      (∃ r, S25FL256PageRead sampleConsts (constBus 0x02 []) 65538 0x12345678 4 [] = some r ∧
        BusOp.write sampleConsts.kS25FL256_Register4READ (sectorAddressBytes 0x12345678) false
          ∈ r.2.2) := by
  have h := C18_address_bytes_big_endian sampleConsts (constBus 0x02 []) 65538
    { freshDescriptor with pageSize := 256 } 0x12345678 [1, 2, 3, 4] 4 []
    (by decide) (by decide) (by decide)
  exact ⟨by decide, h.2.1, h.2.2.2.1, h.2.2.2.2.2⟩

theorem checkStatusLoop_success (c : Consts) (bus : Bus) (flag : Nat) (tr tr1 : List BusOp) :
    ∀ fuel j timeout,
      checkStatusLoop c bus flag fuel (statusResp c bus tr j).1
          (byteAt (statusResp c bus tr j).2 0) timeout (tr ++ statusReads c (j + 1)) =
        some (c.kSuccess, tr1) →
      ∃ k, tr1 = tr ++ statusReads c (k + 1) ∧ (statusResp c bus tr k).1 = c.kSuccess ∧
        byteAt (statusResp c bus tr k).2 0 &&& c.S25FL256_RegisterRDSR1_WIP = 0 := by
  intro fuel
  induction fuel with
  | zero =>
    intro j timeout h
    rw [checkStatusLoop] at h
    exact Option.noConfusion h
  | succ fuel ih =>
    intro j timeout h
    rw [checkStatusLoop_succ] at h
    by_cases hb : byteAt (statusResp c bus tr j).2 0 = 0
    · rw [if_pos hb] at h
      have hp := Prod.mk.inj (Option.some.inj h)
      exact ⟨j, hp.2.symm, hp.1, by rw [hb]; simp⟩
    · rw [if_neg hb] at h
      by_cases hr : byteAt (statusResp c bus tr j).2 0 &&& c.S25FL256_RegisterRDSR1_WIP = 0 ∧
          byteAt (statusResp c bus tr j).2 0 &&& c.S25FL256_RegisterRDSR1_WEL ≠ 0
      · rw [if_pos hr] at h
        have hp := Prod.mk.inj (Option.some.inj h)
        exact ⟨j, hp.2.symm, hp.1, hr.1⟩
      · rw [if_neg hr] at h
        by_cases hs : passStatus c flag (statusResp c bus tr j).1
            (byteAt (statusResp c bus tr j).2 0) timeout ≠ c.kSuccess
        · rw [if_pos hs] at h
          exact absurd (Prod.mk.inj (Option.some.inj h)).1 hs
        · rw [if_neg hs, List.append_assoc, statusReads_succ] at h
          exact ih (j + 1) _ h

/-- C19: whenever `S25FL256CheckStatus` returns success, the last status read
it performed succeeded and the byte that read delivered has the
work-in-progress flag clear. -/
theorem C19_checkStatus_success_last_read_idle (c : Consts) (bus : Bus)
    (inStatusFlag fuel : Nat) (tr tr1 : List BusOp)
    (h : S25FL256CheckStatus c bus fuel inStatusFlag tr = some (c.kSuccess, tr1)) :
    ∃ k, tr1 = tr ++ statusReads c (k + 1) ∧ (statusResp c bus tr k).1 = c.kSuccess ∧
      byteAt (statusResp c bus tr k).2 0 &&& c.S25FL256_RegisterRDSR1_WIP = 0 := by
  unfold S25FL256CheckStatus at h
  by_cases hs : (bus.SPI3ReadRegister tr c.kS25FL256_RegisterRDSR1 1).1 ≠ c.kSuccess
  · simp only [hs, ne_eq, not_false_eq_true, if_true, Option.some.injEq, Prod.mk.injEq,
      false_and] at h
  · simp only [hs, if_false] at h
    have h' : checkStatusLoop c bus inStatusFlag fuel (statusResp c bus tr 0).1
        (byteAt (statusResp c bus tr 0).2 0) 0 (tr ++ statusReads c (0 + 1)) =
        some (c.kSuccess, tr1) := by
      rw [statusResp_zero]
      exact h
    exact checkStatusLoop_success c bus inStatusFlag tr tr1 fuel 0 0 h'

/-- C19 instance: the answers `0x01` then `0x02`; the check succeeds after
two reads and the second byte has work-in-progress clear. -/
theorem C19_checkStatus_success_last_read_idle_witness :
    ∃ k, [BusOp.read 0x05 1, BusOp.read 0x05 1] = [] ++ statusReads sampleConsts (k + 1) ∧
      (statusResp sampleConsts (scriptBus [[0x01], [0x02]]) [] k).1 = sampleConsts.kSuccess ∧
      byteAt (statusResp sampleConsts (scriptBus [[0x01], [0x02]]) [] k).2 0 &&&
        sampleConsts.S25FL256_RegisterRDSR1_WIP = 0 :=
  C19_checkStatus_success_last_read_idle sampleConsts (scriptBus [[0x01], [0x02]]) 2 2 []
    [BusOp.read 0x05 1, BusOp.read 0x05 1] (by decide)

end S25FL256

namespace PCA9500

/-! ## EEPROM page write of the PCA9500 -/

theorem PCA9500EEPROMPageWrite_full_size (k : Consts) (I2CWrite : Nat → List Nat → Int)
    (inSlaveAddress inMemoryAddress : Nat) (inData : List Nat)
    (hslave : inSlaveAddress ≥ k.kPCA9500_SlaveAddress1 ∧
      inSlaveAddress < k.kPCA9500_MaxAddresses) :
    PCA9500EEPROMPageWrite k I2CWrite inSlaveAddress inMemoryAddress inData
        (k.kPCA9500_EEPROMPageSize + 1) =
      Outcome.outOfBounds (k.kPCA9500_EEPROMPageSize + 1) := by
  have hsize : k.kPCA9500_EEPROMPageSize + 1 ≥ 1 ∧
      k.kPCA9500_EEPROMPageSize + 1 ≤ k.kPCA9500_EEPROMPageSize + 1 := ⟨by omega, by omega⟩
  have hover : 1 + (k.kPCA9500_EEPROMPageSize + 1) > k.kPCA9500_EEPROMPageSize + 1 := by omega
  simp only [PCA9500EEPROMPageWrite, hslave, hsize, hover, and_self, not_true_eq_false,
    if_true, if_false]

theorem PCA9500EEPROMPageWrite_within_page (k : Consts) (I2CWrite : Nat → List Nat → Int)
    (inSlaveAddress inMemoryAddress : Nat) (inData : List Nat) (inSize : Nat)
    (hslave : inSlaveAddress ≥ k.kPCA9500_SlaveAddress1 ∧
      inSlaveAddress < k.kPCA9500_MaxAddresses)
    (h1 : 1 ≤ inSize) (h2 : inSize ≤ k.kPCA9500_EEPROMPageSize) :
    ∃ status sent, PCA9500EEPROMPageWrite k I2CWrite inSlaveAddress inMemoryAddress inData
        inSize = Outcome.returned status sent := by
  have hsize : inSize ≥ 1 ∧ inSize ≤ k.kPCA9500_EEPROMPageSize + 1 := ⟨h1, by omega⟩
  have hin : ¬ 1 + inSize > k.kPCA9500_EEPROMPageSize + 1 := by omega
  have hin2 : ¬ inSize + 1 > k.kPCA9500_EEPROMPageSize + 1 := by omega
  simp only [PCA9500EEPROMPageWrite, hslave, hsize, hin, hin2, and_self, not_true_eq_false,
    if_false]
  exact ⟨_, _, rfl⟩

/-- C20 (evaluation at a failing input): with a page size of 4 the local
buffer has 5 elements; `inSize = 5` passes the argument check
`inSize >= 1 && inSize <= kPCA9500_EEPROMPageSize + 1`, and the copy of 5
bytes to offset 1 accesses the element at index 5, outside the buffer. -/
theorem C20_page_write_accesses_past_buffer :
    ((5 : Nat) ≥ 1 ∧ 5 ≤ sampleConsts.kPCA9500_EEPROMPageSize + 1) ∧
      PCA9500EEPROMPageWrite sampleConsts (fun _ _ => 0) 1 0x10 [1, 2, 3, 4, 5] 5 =
        Outcome.outOfBounds 5 ∧
      ¬ (5 < sampleConsts.kPCA9500_EEPROMPageSize + 1) := by
  decide

end PCA9500
